import Mathlib

/-!
# Verification of the extract-and-load pipeline (GitHub / PyPI extractors)

Shallow embedding of `src/extractors/github_extractor.py` and
`src/extractors/pypi_extractor.py`.

Python values that can appear in the extracted records are modelled by
`PyVal`; JSON documents by `JVal`.  `json.dumps` followed by `json.loads`
is modelled as encoding into the JSON document tree (`pyDumps`) followed by
decoding (`pyLoads`): the intermediate JSON text is represented by the tree
itself, which is faithful because rendering a tree to text and parsing it
back is the identity on well-formed documents (only integers are modelled,
so number formatting is exact).

Wall-clock readings (`datetime.now(timezone.utc)`) are modelled by a tick
counter threaded through the functions: each call to `now` returns the
current tick and increments it, so successive readings are strictly
increasing.  The ISO-8601 string produced by `.isoformat()` is represented
by the tick value itself (the rendering is injective and order-preserving).
-/

/-- Python exception kinds that can arise in the modelled code.  Every
constructor models a subclass of Python's `Exception`; `requestError`
additionally models `requests.exceptions.RequestException` (which
`raise_for_status` and network failures raise), and `dbError` models the
exceptions raised by the warehouse connector. -/
inductive PyExn where
  | requestError
  | valueError
  | typeError
  | attributeError
  | keyError
  | indexError
  | dbError
deriving DecidableEq, Repr

/-- `True` for every modelled exception kind: all of them are subclasses of
Python's `Exception`, so `except Exception` catches each of them. -/
def PyExn.isException : PyExn → Bool := fun _ => true

/-- `True` exactly for `requests.exceptions.RequestException`, the class
caught by the first `except` clause of the fetchers. -/
def PyExn.isRequestException : PyExn → Bool
  | .requestError => true
  | _ => false

/-- Python values reachable in the extractors: strings, integers, booleans,
`None`, lists, tuples, dictionaries with string keys, and other objects
(`pyObject`) that `json.dumps` cannot serialize.  (Timestamps embedded in
records are represented by their tick value as an integer, see the file
header.) -/
inductive PyVal where
  | str (s : String)
  | int (n : Int)
  | bool (b : Bool)
  | none
  | list (xs : List PyVal)
  | tuple (xs : List PyVal)
  | dict (kvs : List (String × PyVal))
  | pyObject (id : Nat)

/-- JSON document trees (only integer numbers are modelled, matching the
values the extractors produce). -/
inductive JVal where
  | str (s : String)
  | int (n : Int)
  | bool (b : Bool)
  | null
  | arr (xs : List JVal)
  | obj (kvs : List (String × JVal))

mutual
/-- `json.dumps`: encode a Python value as a JSON document.  Tuples are
serialized as JSON arrays; `pyObject` values are not serializable
(`json.dumps` raises `TypeError`, modelled by `Option.none`). -/
def pyDumps : PyVal → Option JVal
  | .str s => some (.str s)
  | .int n => some (.int n)
  | .bool b => some (.bool b)
  | .none => some .null
  | .list xs => (pyDumpsList xs).map JVal.arr
  | .tuple xs => (pyDumpsList xs).map JVal.arr
  | .dict kvs => (pyDumpsObj kvs).map JVal.obj
  | .pyObject _ => Option.none

/-- Encode every element of a list, failing if any element fails. -/
def pyDumpsList : List PyVal → Option (List JVal)
  | [] => some []
  | x :: xs =>
    match pyDumps x, pyDumpsList xs with
    | some j, some js => some (j :: js)
    | _, _ => Option.none

/-- Encode every value of a key-value list, failing if any value fails. -/
def pyDumpsObj : List (String × PyVal) → Option (List (String × JVal))
  | [] => some []
  | (k, v) :: kvs =>
    match pyDumps v, pyDumpsObj kvs with
    | some j, some js => some ((k, j) :: js)
    | _, _ => Option.none
end

mutual
/-- `json.loads`: decode a JSON document into a Python value.  JSON arrays
decode to Python lists (never tuples). -/
def pyLoads : JVal → PyVal
  | .str s => .str s
  | .int n => .int n
  | .bool b => .bool b
  | .null => .none
  | .arr xs => .list (pyLoadsList xs)
  | .obj kvs => .dict (pyLoadsObj kvs)

/-- Decode every element of a JSON array. -/
def pyLoadsList : List JVal → List PyVal
  | [] => []
  | x :: xs => pyLoads x :: pyLoadsList xs

/-- Decode every member of a JSON object. -/
def pyLoadsObj : List (String × JVal) → List (String × PyVal)
  | [] => []
  | (k, v) :: kvs => (k, pyLoads v) :: pyLoadsObj kvs
end

mutual
/-- A Python value is JSON-native when it uses only the types JSON itself
has: no tuples and no unserializable objects anywhere inside it.  Every
value obtained from `response.json()` is JSON-native. -/
def PyVal.isJsonNative : PyVal → Bool
  | .str _ => true
  | .int _ => true
  | .bool _ => true
  | .none => true
  | .list xs => PyVal.isJsonNativeList xs
  | .tuple _ => false
  | .dict kvs => PyVal.isJsonNativeObj kvs
  | .pyObject _ => false

/-- All elements of the list are JSON-native. -/
def PyVal.isJsonNativeList : List PyVal → Bool
  | [] => true
  | x :: xs => PyVal.isJsonNative x && PyVal.isJsonNativeList xs

/-- All values of the key-value list are JSON-native. -/
def PyVal.isJsonNativeObj : List (String × PyVal) → Bool
  | [] => true
  | (_, v) :: kvs => PyVal.isJsonNative v && PyVal.isJsonNativeObj kvs
end

mutual
/-- On JSON-native values, decoding after encoding is the identity. -/
theorem pyLoads_pyDumps (v : PyVal) (h : PyVal.isJsonNative v = true) :
    (pyDumps v).map pyLoads = some v := by
  match v with
  | .str s => simp [pyDumps, pyLoads]
  | .int n => simp [pyDumps, pyLoads]
  | .bool b => simp [pyDumps, pyLoads]
  | .none => simp [pyDumps, pyLoads]
  | .list xs =>
    have hxs := pyLoadsList_pyDumpsList xs (by simpa [PyVal.isJsonNative] using h)
    obtain ⟨js, hjs, hback⟩ := hxs
    simp [pyDumps, hjs, pyLoads, hback]
  | .tuple xs => simp [PyVal.isJsonNative] at h
  | .dict kvs =>
    have hkvs := pyLoadsObj_pyDumpsObj kvs (by simpa [PyVal.isJsonNative] using h)
    obtain ⟨js, hjs, hback⟩ := hkvs
    simp [pyDumps, hjs, pyLoads, hback]
  | .pyObject i => simp [PyVal.isJsonNative] at h

/-- List version of `pyLoads_pyDumps`. -/
theorem pyLoadsList_pyDumpsList (xs : List PyVal)
    (h : PyVal.isJsonNativeList xs = true) :
    ∃ js, pyDumpsList xs = some js ∧ pyLoadsList js = xs := by
  match xs with
  | [] => exact ⟨[], rfl, rfl⟩
  | x :: rest =>
    have hx : PyVal.isJsonNative x = true := by
      have := h; simp [PyVal.isJsonNativeList] at this; exact this.1
    have hrest : PyVal.isJsonNativeList rest = true := by
      have := h; simp [PyVal.isJsonNativeList] at this; exact this.2
    have h1 := pyLoads_pyDumps x hx
    obtain ⟨j, hj, hjb⟩ : ∃ j, pyDumps x = some j ∧ pyLoads j = x := by
      cases hd : pyDumps x with
      | none => simp [hd] at h1
      | some j => exact ⟨j, rfl, by simpa [hd] using h1⟩
    obtain ⟨js, hjs, hback⟩ := pyLoadsList_pyDumpsList rest hrest
    exact ⟨j :: js, by simp [pyDumpsList, hj, hjs], by simp [pyLoadsList, hjb, hback]⟩

/-- Key-value version of `pyLoads_pyDumps`. -/
theorem pyLoadsObj_pyDumpsObj (kvs : List (String × PyVal))
    (h : PyVal.isJsonNativeObj kvs = true) :
    ∃ js, pyDumpsObj kvs = some js ∧ pyLoadsObj js = kvs := by
  match kvs with
  | [] => exact ⟨[], rfl, rfl⟩
  | (k, v) :: rest =>
    have hv : PyVal.isJsonNative v = true := by
      have := h; simp [PyVal.isJsonNativeObj] at this; exact this.1
    have hrest : PyVal.isJsonNativeObj rest = true := by
      have := h; simp [PyVal.isJsonNativeObj] at this; exact this.2
    have h1 := pyLoads_pyDumps v hv
    obtain ⟨j, hj, hjb⟩ : ∃ j, pyDumps v = some j ∧ pyLoads j = v := by
      cases hd : pyDumps v with
      | none => simp [hd] at h1
      | some j => exact ⟨j, rfl, by simpa [hd] using h1⟩
    obtain ⟨js, hjs, hback⟩ := pyLoadsObj_pyDumpsObj rest hrest
    exact ⟨(k, j) :: js, by simp [pyDumpsObj, hj, hjs], by simp [pyLoadsObj, hjb, hback]⟩
end


/-- Python truthiness (`if v:`): empty strings/collections, `0`, `False`
and `None` are falsy; arbitrary objects are truthy. -/
def PyVal.truthy : PyVal → Bool
  | .str s => !s.isEmpty
  | .int n => n != 0
  | .bool b => b
  | .none => false
  | .list xs => !xs.isEmpty
  | .tuple xs => !xs.isEmpty
  | .dict kvs => !kvs.isEmpty
  | .pyObject _ => true

/-- Python `v.get(k)` (single-argument `dict.get`): returns the stored
value, or `None` when the key is missing; raises `AttributeError` when `v`
is not a dictionary. -/
def PyVal.get (v : PyVal) (k : String) : Except PyExn PyVal :=
  match v with
  | .dict kvs => .ok ((kvs.lookup k).getD .none)
  | _ => .error .attributeError

/-- Python `v.get(k, d)` (`dict.get` with an explicit default). -/
def PyVal.getD (v : PyVal) (k : String) (d : PyVal) : Except PyExn PyVal :=
  match v with
  | .dict kvs => .ok ((kvs.lookup k).getD d)
  | _ => .error .attributeError

/-- Python `len(v)`: defined for strings, lists, tuples and dictionaries;
raises `TypeError` otherwise. -/
def pyLen : PyVal → Except PyExn Nat
  | .str s => .ok s.length
  | .list xs => .ok xs.length
  | .tuple xs => .ok xs.length
  | .dict kvs => .ok kvs.length
  | _ => .error .typeError

/-- Python `v[0]`: first element of a list/tuple, first character of a
string; raises `IndexError` when empty, `KeyError` on a dictionary (our
keys are strings, so the integer key `0` is never present), and
`TypeError` otherwise. -/
def pyIndex0 : PyVal → Except PyExn PyVal
  | .list [] => .error .indexError
  | .list (x :: _) => .ok x
  | .tuple [] => .error .indexError
  | .tuple (x :: _) => .ok x
  | .str s => if s.isEmpty then .error .indexError else .ok (.str (toString s.front))
  | .dict _ => .error .keyError
  | _ => .error .typeError

/-!
## Loader model (`save_to_snowflake`)

Both extractors share the same loader shape; only the temporary table, the
permanent table and the entity-key field name differ (`LoaderCfg`).  The
warehouse is modelled by `DbEnv`, which says for each statement of the
fixed statement sequence whether it succeeds or raises; the loader's
observable behaviour is the list of warehouse events it performed, the
rows it handed to the staging insert, the final clock, and its Python
result.
-/

/-- The per-source loader configuration: temporary table name, permanent
table name, and which payload field holds the entity key. -/
structure LoaderCfg where
  tempTable : String
  targetTable : String
  keyField : String
deriving DecidableEq, Repr

/-- Warehouse interactions observable from `save_to_snowflake`, in the
order they were attempted. -/
inductive DbEvent where
  | connect
  | useSchema (schema : String)
  | createTemp (table : String)
  | stageInsert (table : String) (rows : Nat)
  | promote (source target : String)
  | commit
  | rollback
  | cursorClose
  | connClose
deriving DecidableEq, Repr

/-- Whether each warehouse operation of the loader succeeds or raises an
exception when attempted. -/
structure DbEnv where
  connectOk : Bool
  useSchemaOk : Bool
  createTempOk : Bool
  stageInsertOk : Bool
  promoteOk : Bool
  commitOk : Bool
deriving DecidableEq, Repr

/-- One tuple of `insert_data`:
`(datetime.now(timezone.utc), record.get(keyField), json_str)`. -/
structure StagedRow where
  tick : Nat
  key : PyVal
  rawJson : JVal

/-- Result of one `save_to_snowflake` call.  `result = .ok Option.none`
models the Python function returning `None` (a bare `return`);
`.ok (some n)` would model `return n` (which the source never executes);
`.error e` models an exception propagating to the caller.  `staged` is the
list of rows successfully handed to the staging `executemany` (empty if
staging was never reached or itself raised). -/
structure SaveOut where
  events : List DbEvent
  staged : List StagedRow
  clock : Nat
  result : Except PyExn (Option Nat)

/-- The serialize-and-filter loop of `save_to_snowflake`: for each truthy
record, `json.dumps` it (on `TypeError`/`ValueError` drop the record and
continue), re-parse as a validation gate (`json.loads` of a string
produced by `json.dumps` always succeeds), then append
`(now(), record.get(keyField), json_str)`.  `record.get` raises
`AttributeError` on a truthy non-dict record; that exception is *not*
caught by the loop's `except (TypeError, ValueError)` clause and
propagates (after `now()` has already consumed a tick). -/
def buildInsertData (keyField : String) :
    List PyVal → Nat → Except PyExn (List StagedRow) × Nat
  | [], c => (.ok [], c)
  | r :: rest, c =>
    if r.truthy then
      match pyDumps r with
      | Option.none => buildInsertData keyField rest c
      | some j =>
        match r.get keyField with
        | .error e => (.error e, c + 1)
        | .ok k =>
          match buildInsertData keyField rest (c + 1) with
          | (.ok rows, c') => (.ok (⟨c, k, j⟩ :: rows), c')
          | (.error e, c') => (.error e, c')
    else
      buildInsertData keyField rest c

/-- The schema selected by the loader's `USE SCHEMA` statement. -/
def rawSchema : String := "DATA_ENGINEERING_PROJECT.RAW_DATA"

/-- The part of `save_to_snowflake` after the temporary table exists:
handle a serialize-loop exception (rollback, release, re-raise), the
all-dropped early return, the staging `executemany`, the promotion
`INSERT...SELECT PARSE_JSON`, and the commit.  `built` is the outcome of
the serialize-and-filter loop and `cF` the clock after it. -/
def saveAfterBuild (cfg : LoaderCfg) (env : DbEnv)
    (built : Except PyExn (List StagedRow)) (cF : Nat) : SaveOut :=
  match built with
  | .error e =>
    { events := [.connect, .useSchema rawSchema, .createTemp cfg.tempTable,
        .rollback, .cursorClose, .connClose],
      staged := [], clock := cF, result := .error e }
  | .ok rows =>
    if rows.isEmpty then
      -- "No valid data to insert after filtering.": bare return
      { events := [.connect, .useSchema rawSchema, .createTemp cfg.tempTable,
          .cursorClose, .connClose],
        staged := [], clock := cF, result := .ok Option.none }
    else if env.stageInsertOk = false then
      { events := [.connect, .useSchema rawSchema, .createTemp cfg.tempTable,
          .stageInsert cfg.tempTable rows.length, .rollback, .cursorClose, .connClose],
        staged := [], clock := cF, result := .error .dbError }
    else if env.promoteOk = false then
      { events := [.connect, .useSchema rawSchema, .createTemp cfg.tempTable,
          .stageInsert cfg.tempTable rows.length, .promote cfg.tempTable cfg.targetTable,
          .rollback, .cursorClose, .connClose],
        staged := rows, clock := cF, result := .error .dbError }
    else if env.commitOk = false then
      { events := [.connect, .useSchema rawSchema, .createTemp cfg.tempTable,
          .stageInsert cfg.tempTable rows.length, .promote cfg.tempTable cfg.targetTable,
          .commit, .rollback, .cursorClose, .connClose],
        staged := rows, clock := cF, result := .error .dbError }
    else
      -- "Successfully saved {len(insert_data)} ..." then falls off the end: None
      { events := [.connect, .useSchema rawSchema, .createTemp cfg.tempTable,
          .stageInsert cfg.tempTable rows.length, .promote cfg.tempTable cfg.targetTable,
          .commit, .cursorClose, .connClose],
        staged := rows, clock := cF, result := .ok Option.none }

/-- `save_to_snowflake(data)`: empty-batch early return; connect; `USE
SCHEMA`; `CREATE TEMPORARY TABLE`; then the serialize-and-filter loop and
the staging/promotion/commit sequence (`saveAfterBuild`).  Any exception
after the connection is acquired is logged, rolled back
(`if conn: conn.rollback()`) and re-raised; the `finally` block closes the
cursor (when it exists) and the connection (when it is not `None`) on
every exit path. -/
def saveToSnowflakeCfg (cfg : LoaderCfg) (data : List PyVal) (env : DbEnv)
    (c : Nat) : SaveOut :=
  if data.isEmpty then
    -- "No data to save": bare return, session never opened
    { events := [], staged := [], clock := c, result := .ok Option.none }
  else if env.connectOk = false then
    -- connect raised: conn is still None, so no rollback and no closes
    { events := [.connect], staged := [], clock := c, result := .error .dbError }
  else if env.useSchemaOk = false then
    { events := [.connect, .useSchema rawSchema, .rollback, .cursorClose, .connClose],
      staged := [], clock := c, result := .error .dbError }
  else if env.createTempOk = false then
    { events := [.connect, .useSchema rawSchema, .createTemp cfg.tempTable,
        .rollback, .cursorClose, .connClose],
      staged := [], clock := c, result := .error .dbError }
  else
    saveAfterBuild cfg env (buildInsertData cfg.keyField data c).1
      (buildInsertData cfg.keyField data c).2

/-- Loader configuration of `GitHubExtractor.save_to_snowflake`. -/
def githubLoaderCfg : LoaderCfg :=
  { tempTable := "GITHUB_REPOS_TEMP"
    targetTable := "DATA_ENGINEERING_PROJECT.RAW_DATA.GITHUB_REPOS"
    keyField := "repo_name" }

/-- Loader configuration of `PyPIExtractor.save_to_snowflake`. -/
def pypiLoaderCfg : LoaderCfg :=
  { tempTable := "PYPI_PACKAGES_TEMP"
    targetTable := "DATA_ENGINEERING_PROJECT.RAW_DATA.PYPI_PACKAGES"
    keyField := "package_name" }

/-- `GitHubExtractor.save_to_snowflake`. -/
def GitHubExtractor.saveToSnowflake (data : List PyVal) (env : DbEnv) (c : Nat) : SaveOut :=
  saveToSnowflakeCfg githubLoaderCfg data env c

/-- `PyPIExtractor.save_to_snowflake`. -/
def PyPIExtractor.saveToSnowflake (data : List PyVal) (env : DbEnv) (c : Nat) : SaveOut :=
  saveToSnowflakeCfg pypiLoaderCfg data env c

/-!
## Fetcher model (`get_repo_data` / `get_package_info`)

An HTTP call is modelled by `Option HttpResp`: `Option.none` means the
`requests.get` call itself raised a `RequestException` (network error);
otherwise the response has a status code and a body, where `body = none`
means `response.json()` raises (malformed JSON).
-/

/-- An HTTP response: status code and JSON body (`Option.none` body means
`response.json()` raises a decode error). -/
structure HttpResp where
  status : Nat
  body : Option JVal

/-- Observable fetch-side effects: HTTP calls and sleeps. -/
inductive FEvent where
  | primaryCall
  | sleep60
  | contributorsCall
  | releasesCall
  | statsCall
  | sleep1
deriving DecidableEq, Repr

/-- `response.raise_for_status()` raises exactly for 4xx and 5xx codes. -/
def statusRaises (s : Nat) : Bool := decide (400 ≤ s ∧ s < 600)

/-- `response.json()`. -/
def respJson (r : HttpResp) : Except PyExn PyVal :=
  match r.body with
  | some j => .ok (pyLoads j)
  | Option.none => .error .valueError

mutual
/-- Python `==` between modelled values (structural, with the numeric
equality between booleans and integers; dictionary equality is compared in
key order, an approximation of Python's order-insensitive dict equality
that is exact on equal key orders). -/
def PyVal.beq : PyVal → PyVal → Bool
  | .str a, .str b => a == b
  | .int a, .int b => a == b
  | .bool a, .bool b => a == b
  | .bool a, .int n => (if a then (1 : Int) else 0) == n
  | .int n, .bool b => n == (if b then (1 : Int) else 0)
  | .none, .none => true
  | .list a, .list b => PyVal.beqList a b
  | .tuple a, .tuple b => PyVal.beqList a b
  | .dict a, .dict b => PyVal.beqObj a b
  | .pyObject a, .pyObject b => a == b
  | _, _ => false

/-- Elementwise `PyVal.beq`. -/
def PyVal.beqList : List PyVal → List PyVal → Bool
  | [], [] => true
  | x :: xs, y :: ys => PyVal.beq x y && PyVal.beqList xs ys
  | _, _ => false

/-- Pairwise `PyVal.beq` on key-value lists. -/
def PyVal.beqObj : List (String × PyVal) → List (String × PyVal) → Bool
  | [], [] => true
  | (k, v) :: xs, (k2, v2) :: ys => k == k2 && PyVal.beq v v2 && PyVal.beqObj xs ys
  | _, _ => false
end

/-- Python `item in container`: key membership for dictionaries (raising
`TypeError` on unhashable keys), elementwise `==` for lists/tuples,
substring test for strings. -/
def pyContains (item container : PyVal) : Except PyExn Bool :=
  match container with
  | .dict kvs =>
    match item with
    | .str s => .ok (kvs.lookup s).isSome
    | .list _ => .error .typeError
    | .dict _ => .error .typeError
    | _ => .ok false
  | .list xs => .ok (xs.any (PyVal.beq item))
  | .tuple xs => .ok (xs.any (PyVal.beq item))
  | .str s =>
    match item with
    | .str t => .ok (t.isEmpty || (s.splitOn t).length > 1)
    | _ => .error .typeError
  | _ => .error .typeError

/-- Python `container[key]` as used at `releases[latest_version]`. -/
def pyGetItem (v key : PyVal) : Except PyExn PyVal :=
  match v with
  | .dict kvs =>
    match key with
    | .str s =>
      match kvs.lookup s with
      | some x => .ok x
      | Option.none => .error .keyError
    | .list _ => .error .typeError
    | .dict _ => .error .typeError
    | _ => .error .keyError
  | .list xs =>
    match key with
    | .int n =>
      match xs.get? n.toNat with
      | some x => if 0 ≤ n then .ok x else .error .indexError
      | Option.none => .error .indexError
    | _ => .error .typeError
  | _ => .error .typeError

/-- The per-call HTTP environment of one `GitHubExtractor.get_repo_data`
invocation: the primary repository call, the repeated primary call after a
rate-limit cooldown, and the two enrichment calls. -/
structure GhEnv where
  primary : Option HttpResp
  primaryRetry : Option HttpResp
  contributors : Option HttpResp
  releases : Option HttpResp

/-- `releases[0] if releases else None`. -/
def latestReleaseField (rel : PyVal) : Except PyExn PyVal :=
  if rel.truthy then pyIndex0 rel else pure PyVal.none

/-- `repo_data.get("license", {}).get("name") if repo_data.get("license")
else None`, given the already-evaluated condition value. -/
def licenseField (repoData licCond : PyVal) : Except PyExn PyVal :=
  if licCond.truthy then do
    let lic ← repoData.getD "license" (.dict [])
    lic.get "name"
  else pure PyVal.none

/-- The `extracted_data` dictionary literal of `get_repo_data`, evaluated
field by field (any raised exception aborts the whole fetch).  `c` is the
clock tick consumed by the final `datetime.now(timezone.utc).isoformat()`
field. -/
def buildGithubRecord (repoName : String) (repoData : PyVal) (cc : Nat)
    (rel : PyVal) (c : Nat) : Except PyExn PyVal := do
  let fullName ← repoData.get "full_name"
  let descr ← repoData.get "description"
  let language ← repoData.get "language"
  let stars ← repoData.getD "stargazers_count" (.int 0)
  let forks ← repoData.getD "forks_count" (.int 0)
  let watchers ← repoData.getD "watchers_count" (.int 0)
  let openIssues ← repoData.getD "open_issues_count" (.int 0)
  let size ← repoData.getD "size" (.int 0)
  let createdAt ← repoData.get "created_at"
  let updatedAt ← repoData.get "updated_at"
  let pushedAt ← repoData.get "pushed_at"
  let defaultBranch ← repoData.get "default_branch"
  let relCount ← pyLen rel
  let latestRelease ← latestReleaseField rel
  let topics ← repoData.getD "topics" (.list [])
  let licCond ← repoData.get "license"
  let licenseName ← licenseField repoData licCond
  pure (.dict [
    ("repo_name", .str repoName),
    ("full_name", fullName),
    ("description", descr),
    ("language", language),
    ("stars", stars),
    ("forks", forks),
    ("watchers", watchers),
    ("open_issues", openIssues),
    ("size", size),
    ("created_at", createdAt),
    ("updated_at", updatedAt),
    ("pushed_at", pushedAt),
    ("default_branch", defaultBranch),
    ("contributors_count", .int (cc : Int)),
    ("releases_count", .int (relCount : Int)),
    ("latest_release", latestRelease),
    ("topics", topics),
    ("license", licenseName),
    ("extracted_at", .int (c : Int))])

/-- `len(contributors_response.json()) if contributors_response.status_code
== 200 else 0` (a malformed 200 body makes `.json()` raise and aborts the
whole fetch; a non-200 status degrades to 0). -/
def contribCount (cr : HttpResp) : Except PyExn Nat :=
  if cr.status == 200 then
    match respJson cr with
    | .error e => .error e
    | .ok v => pyLen v
  else .ok 0

/-- `releases_response.json() if releases_response.status_code == 200 else
[]`. -/
def releasesVal (rr : HttpResp) : Except PyExn PyVal :=
  if rr.status == 200 then respJson rr else .ok (.list [])

/-- The part of `get_repo_data` after the primary response has been
selected (original or retried): `raise_for_status`, JSON decode, the two
enrichment calls with their status-guarded defaults, and the record
build.  `evs` are the events already performed by the primary call(s). -/
def GitHubExtractor.getRepoDataRest (repoName : String) (env : GhEnv)
    (evs : List FEvent) (resp : HttpResp) (c : Nat) :
    List FEvent × Nat × Except PyExn PyVal :=
  if statusRaises resp.status then (evs, c, .error .requestError)
  else
    match respJson resp with
    | .error e => (evs, c, .error e)
    | .ok repoData =>
      match env.contributors with
      | Option.none => (evs ++ [.contributorsCall], c, .error .requestError)
      | some cr =>
        match contribCount cr with
        | .error e => (evs ++ [.contributorsCall], c, .error e)
        | .ok cc =>
          match env.releases with
          | Option.none =>
            (evs ++ [.contributorsCall, .releasesCall], c, .error .requestError)
          | some rr =>
            match releasesVal rr with
            | .error e => (evs ++ [.contributorsCall, .releasesCall], c, .error e)
            | .ok rel =>
              match buildGithubRecord repoName repoData cc rel c with
              | .error e => (evs ++ [.contributorsCall, .releasesCall], c, .error e)
              | .ok rec =>
                (evs ++ [.contributorsCall, .releasesCall], c + 1, .ok rec)

/-- The `try` block of `get_repo_data`: primary call, 403 cooldown with a
single retry of the primary call, then the rest of the sequence. -/
def GitHubExtractor.getRepoDataBody (repoName : String) (env : GhEnv)
    (c : Nat) : List FEvent × Nat × Except PyExn PyVal :=
  match env.primary with
  | Option.none => ([.primaryCall], c, .error .requestError)
  | some r1 =>
    if r1.status == 403 then
      match env.primaryRetry with
      | Option.none =>
        ([.primaryCall, .sleep60, .primaryCall], c, .error .requestError)
      | some r2 =>
        GitHubExtractor.getRepoDataRest repoName env
          [.primaryCall, .sleep60, .primaryCall] r2 c
    else GitHubExtractor.getRepoDataRest repoName env [.primaryCall] r1 c

/-- Result of one fetcher invocation: events, final clock, and the Python
outcome (`.ok (some r)` a record, `.ok Option.none` the function returned
`None`, `.error e` an exception escaped the fetcher). -/
structure FetchOut where
  events : List FEvent
  clock : Nat
  result : Except PyExn (Option PyVal)

/-- The two `except` clauses shared by both fetchers, applied to the
outcome of the `try` block: `except RequestException` and then
`except Exception` each log and return `None`; an exception matching
neither clause would propagate. -/
def fetchHandler (t : List FEvent × Nat × Except PyExn PyVal) : FetchOut :=
  match t with
  | (evs, c', .ok r) => ⟨evs, c', .ok (some r)⟩
  | (evs, c', .error e) =>
    if e.isRequestException then ⟨evs, c', .ok Option.none⟩
    else if e.isException then ⟨evs, c', .ok Option.none⟩
    else ⟨evs, c', .error e⟩

/-- `get_repo_data`: the `try` block wrapped in the handler clauses. -/
def GitHubExtractor.getRepoData (repoName : String) (env : GhEnv) (c : Nat) :
    FetchOut :=
  fetchHandler (GitHubExtractor.getRepoDataBody repoName env c)

/-- The per-call HTTP environment of one `PyPIExtractor.get_package_info`
invocation: the package metadata call and the download-statistics call. -/
structure PyEnv where
  primary : Option HttpResp
  stats : Option HttpResp

/-- The `download_stats` dictionary: empty unless the statistics call
returned 200, in which case its three fields are read from the decoded
statistics body (whose shape errors raise and abort the fetch). -/
def downloadStats (stats : HttpResp) : Except PyExn (List (String × PyVal)) :=
  if stats.status == 200 then
    match respJson stats with
    | .error e => .error e
    | .ok statsData => do
      let data1 ← statsData.getD "data" (.dict [])
      let d1 ← data1.getD "last_day" (.int 0)
      let data2 ← statsData.getD "data" (.dict [])
      let d2 ← data2.getD "last_week" (.int 0)
      let data3 ← statsData.getD "data" (.dict [])
      let d3 ← data3.getD "last_month" (.int 0)
      pure [("downloads_last_day", d1), ("downloads_last_week", d2),
        ("downloads_last_month", d3)]
  else .ok []

/-- The `latest_release_info` dictionary: filled only when the latest
version is truthy, is a key of `releases`, and has a truthy file list. -/
def latestReleaseInfo (latestVersion releases : PyVal) :
    Except PyExn PyVal := do
  if latestVersion.truthy then
    match ← pyContains latestVersion releases with
    | false => pure (.dict [])
    | true => do
      let latestFiles ← pyGetItem releases latestVersion
      if latestFiles.truthy then do
        let f0 ← pyIndex0 latestFiles
        let ut ← f0.get "upload_time"
        let pv ← f0.get "python_version"
        let sz ← f0.get "size"
        let fn ← f0.get "filename"
        pure (.dict [("upload_time", ut), ("python_version", pv),
          ("size", sz), ("filename", fn)])
      else pure (.dict [])
  else pure (.dict [])

/-- The record construction part of `get_package_info` (everything after
the two HTTP calls): `download_stats`, `info`, `releases`,
`latest_version`, `latest_release_info`, then the `extracted_data`
literal whose `**download_stats` splice inserts the download keys between
`latest_release_info` and `extracted_at`.  `c` is the tick of the final
`datetime.now(timezone.utc).isoformat()`. -/
def buildPypiRecord (packageName : String) (packageData : PyVal)
    (stats : HttpResp) (c : Nat) : Except PyExn PyVal := do
  let dstats ← downloadStats stats
  let info ← packageData.getD "info" (.dict [])
  let releases ← packageData.getD "releases" (.dict [])
  let latestVersion ← info.get "version"
  let lri ← latestReleaseInfo latestVersion releases
  let summary ← info.get "summary"
  let dct ← info.get "description_content_type"
  let homePage ← info.get "home_page"
  let author ← info.get "author"
  let authorEmail ← info.get "author_email"
  let maintainer ← info.get "maintainer"
  let license ← info.get "license"
  let keywords ← info.get "keywords"
  let classifiers ← info.getD "classifiers" (.list [])
  let requiresDist ← info.getD "requires_dist" (.list [])
  let requiresPython ← info.get "requires_python"
  let projectUrls ← info.getD "project_urls" (.dict [])
  let releaseCount ← pyLen releases
  pure (.dict ([
    ("package_name", .str packageName),
    ("version", latestVersion),
    ("summary", summary),
    ("description_content_type", dct),
    ("home_page", homePage),
    ("author", author),
    ("author_email", authorEmail),
    ("maintainer", maintainer),
    ("license", license),
    ("keywords", keywords),
    ("classifiers", classifiers),
    ("requires_dist", requiresDist),
    ("requires_python", requiresPython),
    ("project_urls", projectUrls),
    ("release_count", .int (releaseCount : Int)),
    ("latest_release_info", lri)]
    ++ dstats ++ [("extracted_at", .int (c : Int))]))

/-- The `try` block of `get_package_info`: primary call (note: *no* 403
cooldown and no retry), `raise_for_status`, JSON decode, statistics call,
record build. -/
def PyPIExtractor.getPackageInfoBody (packageName : String) (env : PyEnv)
    (c : Nat) : List FEvent × Nat × Except PyExn PyVal :=
  match env.primary with
  | Option.none => ([.primaryCall], c, .error .requestError)
  | some resp =>
    if statusRaises resp.status then ([.primaryCall], c, .error .requestError)
    else
      match respJson resp with
      | .error e => ([.primaryCall], c, .error e)
      | .ok packageData =>
        match env.stats with
        | Option.none => ([.primaryCall, .statsCall], c, .error .requestError)
        | some stats =>
          match buildPypiRecord packageName packageData stats c with
          | .error e => ([.primaryCall, .statsCall], c, .error e)
          | .ok rec => ([.primaryCall, .statsCall], c + 1, .ok rec)

/-- `get_package_info`: the `try` block wrapped in the handler clauses. -/
def PyPIExtractor.getPackageInfo (packageName : String) (env : PyEnv)
    (c : Nat) : FetchOut :=
  fetchHandler (PyPIExtractor.getPackageInfoBody packageName env c)

/-!
## Extraction Driver and Run Controller
-/

/-- The fixed repository catalog of `GitHubExtractor.__init__`. -/
def githubRepositories : List String :=
  ["apache/airflow", "dbt-labs/dbt-core", "apache/spark", "pandas-dev/pandas",
   "sqlalchemy/sqlalchemy", "great-expectations/great_expectations",
   "prefecthq/prefect", "apache/kafka",
   "snowflakedb/snowflake-connector-python", "duckdb/duckdb"]

/-- The fixed package catalog of `PyPIExtractor.__init__`. -/
def pypiPackages : List String :=
  ["apache-airflow", "dbt-core", "pyspark", "pandas", "sqlalchemy",
   "great-expectations", "prefect", "kafka-python",
   "snowflake-connector-python", "duckdb"]

/-- Result of one extraction-driver invocation.  `attempts` records, per
catalog entity in order, the outcome of its fetch; `batch` is the
accumulated `extracted_data` list; `err` is the exception that escaped the
loop, `Option.none` when the loop ran to completion. -/
structure DriveOut where
  events : List FEvent
  attempts : List (String × Option PyVal)
  batch : List PyVal
  clock : Nat
  err : Option PyExn

/-- `extract_all_repositories`: iterate the catalog in order, fetch each
repository, append the result to the batch when truthy, and sleep 1s after
every entity.  An exception escaping the fetcher would abort the loop (the
fetcher in fact never lets one escape). -/
def GitHubExtractor.extractAllRepositories (envOf : String → GhEnv) :
    List String → Nat → DriveOut
  | [], c => ⟨[], [], [], c, Option.none⟩
  | repo :: rest, c =>
    let out := GitHubExtractor.getRepoData repo (envOf repo) c
    match out.result with
    | .error e => ⟨out.events, [], [], out.clock, some e⟩
    | .ok ro =>
      let d := GitHubExtractor.extractAllRepositories envOf rest out.clock
      ⟨out.events ++ [FEvent.sleep1] ++ d.events,
       (repo, ro) :: d.attempts,
       (match ro with
        | some r => if r.truthy then r :: d.batch else d.batch
        | Option.none => d.batch),
       d.clock, d.err⟩

/-- `extract_all_packages`: same loop for the PyPI pipeline. -/
def PyPIExtractor.extractAllPackages (envOf : String → PyEnv) :
    List String → Nat → DriveOut
  | [], c => ⟨[], [], [], c, Option.none⟩
  | pkg :: rest, c =>
    let out := PyPIExtractor.getPackageInfo pkg (envOf pkg) c
    match out.result with
    | .error e => ⟨out.events, [], [], out.clock, some e⟩
    | .ok ro =>
      let d := PyPIExtractor.extractAllPackages envOf rest out.clock
      ⟨out.events ++ [FEvent.sleep1] ++ d.events,
       (pkg, ro) :: d.attempts,
       (match ro with
        | some r => if r.truthy then r :: d.batch else d.batch
        | Option.none => d.batch),
       d.clock, d.err⟩

/-- Run-level failures: the `ValueError` raised at the missing-token check
(`configError`), an exception escaping extraction, or an exception
re-raised by the loader. -/
inductive RunErr where
  | configError
  | extractError (e : PyExn)
  | loadError (e : PyExn)
deriving DecidableEq, Repr

/-- Result of one `run()` invocation. -/
structure RunOut where
  fetchEvents : List FEvent
  dbEvents : List DbEvent
  batch : List PyVal
  staged : List StagedRow
  clock : Nat
  result : Except RunErr Unit

/-- `not self.github_token`: the token is Python-falsy when the
environment variable is unset (`None`) or set to the empty string. -/
def tokenMissing : Option String → Bool
  | Option.none => true
  | some s => s.isEmpty

/-- The shared tail of both `run` methods: if the driver raised, the run
re-raises; if the batch is empty, log "No data extracted" and finish
without loading; otherwise call the loader on the batch and propagate its
outcome (the surrounding `except Exception` clause logs and re-raises, so
every failure propagates unchanged). -/
def runAfterExtract (d : DriveOut) (save : List PyVal → Nat → SaveOut) : RunOut :=
  match d.err with
  | some e => ⟨d.events, [], d.batch, [], d.clock, .error (.extractError e)⟩
  | Option.none =>
    if d.batch.isEmpty then
      ⟨d.events, [], d.batch, [], d.clock, .ok ()⟩
    else
      match (save d.batch d.clock).result with
      | .error e =>
        ⟨d.events, (save d.batch d.clock).events, d.batch,
         (save d.batch d.clock).staged, (save d.batch d.clock).clock,
         .error (.loadError e)⟩
      | .ok _ =>
        ⟨d.events, (save d.batch d.clock).events, d.batch,
         (save d.batch d.clock).staged, (save d.batch d.clock).clock, .ok ()⟩

/-- `GitHubExtractor.run`: raise `ValueError` when the token is falsy
(before any network or warehouse activity), then extract, then load when
the batch is non-empty. -/
def GitHubExtractor.run (token : Option String) (envOf : String → GhEnv)
    (denv : DbEnv) (catalog : List String) (c : Nat) : RunOut :=
  if tokenMissing token then
    ⟨[], [], [], [], c, .error .configError⟩
  else
    runAfterExtract (GitHubExtractor.extractAllRepositories envOf catalog c)
      (fun batch ck => GitHubExtractor.saveToSnowflake batch denv ck)

/-- `PyPIExtractor.run`: identical shape but with *no* credential check of
any kind. -/
def PyPIExtractor.run (envOf : String → PyEnv) (denv : DbEnv)
    (catalog : List String) (c : Nat) : RunOut :=
  runAfterExtract (PyPIExtractor.extractAllPackages envOf catalog c)
    (fun batch ck => PyPIExtractor.saveToSnowflake batch denv ck)

/-!
## Statement helpers and sample inputs
-/

/-- Keys of a dictionary record, in order (`Option.none` for non-dicts). -/
def pyKeys : PyVal → Option (List String)
  | .dict kvs => some (kvs.map Prod.fst)
  | _ => Option.none

/-- Whether a record has the given field key. -/
def PyVal.hasKey (v : PyVal) (k : String) : Bool :=
  match v with
  | .dict kvs => (kvs.lookup k).isSome
  | _ => false

/-- The clock tick stored in a record's `extracted_at` payload field. -/
def pyExtractedAt (v : PyVal) : Option Int :=
  match v with
  | .dict kvs =>
    match kvs.lookup "extracted_at" with
    | some (.int n) => some n
    | _ => Option.none
  | _ => Option.none

/-- The record of a successful fetch (`PyVal.none` placeholder otherwise). -/
def recOf (o : FetchOut) : PyVal :=
  match o.result with
  | .ok (some r) => r
  | _ => .none

/-- The loader's validation gate accepts a record exactly when
`json.dumps` succeeds (the subsequent `json.loads` of text produced by
`json.dumps` always succeeds). -/
def gateAccepts (r : PyVal) : Bool := (pyDumps r).isSome

/-- `parse(serialize(record))`: re-parsing the staged JSON text. -/
def jsonRoundTrip (r : PyVal) : Option PyVal := (pyDumps r).map pyLoads

/-- Whether an event is a staging insert. -/
def DbEvent.isStageInsert : DbEvent → Bool
  | .stageInsert _ _ => true
  | _ => false

/-- "The commit statement appears, and a promotion statement was issued
earlier in the event sequence." -/
def commitAfterPromote (evs : List DbEvent) : Prop :=
  ∃ l1 l2, evs = l1 ++ DbEvent.commit :: l2 ∧ ∃ s t, DbEvent.promote s t ∈ l1

/-- A warehouse where every statement succeeds. -/
def dbOk : DbEnv := ⟨true, true, true, true, true, true⟩

/-- A warehouse where the promotion `INSERT...SELECT` raises. -/
def dbPromoteFail : DbEnv := ⟨true, true, true, true, false, true⟩

/-- A sample valid record. -/
def recA : PyVal := .dict [("repo_name", .str "apache/airflow"), ("stars", .int 5)]

/-- A record whose `json.dumps` raises `TypeError` (unserializable value). -/
def recBad : PyVal := .dict [("repo_name", .str "bad/repo"), ("blob", .pyObject 0)]

/-- Another sample valid record. -/
def recB : PyVal := .dict [("repo_name", .str "duckdb/duckdb"), ("stars", .int 7)]

/-- A record containing a tuple: `json.dumps` serializes it as a JSON
array, so it passes the validation gate but does not survive a JSON
round-trip unchanged. -/
def tupleRec : PyVal :=
  .dict [("repo_name", .str "apache/spark"), ("topics", .tuple [.str "sql", .str "db"])]

/-!
## C4 — empty batch
-/

/-- C4 counterexample: on the empty batch the loader performs no warehouse
interaction at all, but its Python return value is `None` (a bare
`return`), not the integer `0` the claim states. -/
theorem save_empty_batch_returns_none_cex :
    (GitHubExtractor.saveToSnowflake [] dbOk 7).events = [] ∧
    (GitHubExtractor.saveToSnowflake [] dbOk 7).result = .ok Option.none ∧
    (GitHubExtractor.saveToSnowflake [] dbOk 7).result ≠ .ok (some 0) := by
  refine ⟨rfl, rfl, fun h => ?_⟩
  rw [show (GitHubExtractor.saveToSnowflake [] dbOk 7).result = .ok Option.none from rfl] at h
  simp at h

/-- C4 (amended): for the empty batch both loaders perform no warehouse
event (no connect, no statement), stage nothing, leave the clock
untouched, and return `None` (not the integer `0`). -/
theorem save_empty_batch_no_session (env : DbEnv) (c : Nat) :
    GitHubExtractor.saveToSnowflake [] env c = ⟨[], [], c, .ok Option.none⟩ ∧
    PyPIExtractor.saveToSnowflake [] env c = ⟨[], [], c, .ok Option.none⟩ :=
  ⟨rfl, rfl⟩

/-!
## C6 — serialize-and-filter isolation
-/

/-- C6 counterexample: when every record is dropped by the validation
gate, the loader indeed attempts no staging insert, but returns `None`,
not the integer `0` the claim states. -/
theorem save_all_dropped_returns_none_cex :
    (GitHubExtractor.saveToSnowflake [recBad] dbOk 0).events =
      [.connect, .useSchema rawSchema, .createTemp "GITHUB_REPOS_TEMP",
       .cursorClose, .connClose] ∧
    (GitHubExtractor.saveToSnowflake [recBad] dbOk 0).events.all
      (fun e => !e.isStageInsert) = true ∧
    (GitHubExtractor.saveToSnowflake [recBad] dbOk 0).result = .ok Option.none ∧
    (GitHubExtractor.saveToSnowflake [recBad] dbOk 0).result ≠ .ok (some 0) := by
  refine ⟨rfl, rfl, rfl, fun h => ?_⟩
  rw [show (GitHubExtractor.saveToSnowflake [recBad] dbOk 0).result = .ok Option.none from rfl] at h
  simp at h

/-- C6 (amended): a record failing JSON serialization is dropped
individually — on a batch of 3 records of which exactly 1 fails, exactly 2
rows are staged and promoted; and when all records are dropped the loader
returns `None` (not `0`) with no staging insert attempted. -/
theorem save_filter_isolation :
    (GitHubExtractor.saveToSnowflake [recA, recBad, recB] dbOk 0).events =
      [.connect, .useSchema rawSchema, .createTemp "GITHUB_REPOS_TEMP",
       .stageInsert "GITHUB_REPOS_TEMP" 2,
       .promote "GITHUB_REPOS_TEMP" "DATA_ENGINEERING_PROJECT.RAW_DATA.GITHUB_REPOS",
       .commit, .cursorClose, .connClose] ∧
    (GitHubExtractor.saveToSnowflake [recA, recBad, recB] dbOk 0).staged.length = 2 ∧
    (GitHubExtractor.saveToSnowflake [recA, recBad, recB] dbOk 0).result = .ok Option.none ∧
    (GitHubExtractor.saveToSnowflake [recBad] dbOk 0).events.all
      (fun e => !e.isStageInsert) = true ∧
    (GitHubExtractor.saveToSnowflake [recBad] dbOk 0).result = .ok Option.none :=
  ⟨rfl, rfl, rfl, rfl, rfl⟩

/-!
## C7 — the fetcher never raises
-/

/-- The handler clauses cover every exception kind that can arise in the
fetch bodies. -/
theorem fetchHandler_isOk (t : List FEvent × Nat × Except PyExn PyVal) :
    ∃ ro, (fetchHandler t).result = .ok ro := by
  rcases t with ⟨evs, c', res⟩
  cases res with
  | ok v => exact ⟨some v, rfl⟩
  | error e =>
    cases e <;> simp [fetchHandler, PyExn.isRequestException, PyExn.isException]

/-- The GitHub fetcher never lets an exception escape. -/
theorem getRepoData_isOk (rn : String) (env : GhEnv) (c : Nat) :
    ∃ ro, (GitHubExtractor.getRepoData rn env c).result = .ok ro :=
  fetchHandler_isOk _

/-- The PyPI fetcher never lets an exception escape. -/
theorem getPackageInfo_isOk (pn : String) (env : PyEnv) (c : Nat) :
    ∃ ro, (PyPIExtractor.getPackageInfo pn env c).result = .ok ro :=
  fetchHandler_isOk _

/-- C7: for every per-call HTTP environment (including network errors on
any call, malformed JSON bodies, and arbitrarily shaped responses) both
fetchers return normally — either a record or `None` — and never let an
exception propagate to the caller. -/
theorem fetcher_never_raises (rn pn : String) (ge : GhEnv) (pe : PyEnv)
    (c c2 : Nat) :
    (∃ ro, (GitHubExtractor.getRepoData rn ge c).result = .ok ro) ∧
    (∃ ro, (PyPIExtractor.getPackageInfo pn pe c2).result = .ok ro) :=
  ⟨getRepoData_isOk rn ge c, getPackageInfo_isOk pn pe c2⟩

/-!
## C9 — JSON round-trip of accepted records
-/

/-- C9 counterexample: a record containing a tuple passes the loader's
validation gate (it is accepted into the staging insert list — here it
produces exactly one staged row), yet `parse(serialize(record))` returns
the record with the tuple normalized to a list, which differs
field-for-field from the original. -/
theorem roundtrip_cex :
    gateAccepts tupleRec = true ∧
    (buildInsertData "repo_name" [tupleRec] 0).1 =
      .ok [⟨0, .str "apache/spark",
        .obj [("repo_name", .str "apache/spark"),
          ("topics", .arr [.str "sql", .str "db"])]⟩] ∧
    jsonRoundTrip tupleRec ≠ some tupleRec := by
  refine ⟨rfl, rfl, fun h => ?_⟩
  rw [show jsonRoundTrip tupleRec =
    some (.dict [("repo_name", .str "apache/spark"),
      ("topics", .list [.str "sql", .str "db"])]) from rfl] at h
  simp [tupleRec] at h

/-- C9 (amended): the round-trip law `parse(serialize(record)) == record`
holds for every accepted record that is JSON-native (built of strings,
numbers, booleans, `None`, lists and dicts only — which covers every
record the fetchers produce); the gate accepts every such record.  The
gate does not compare the re-parse with the original, so accepted records
containing tuples are staged in normalized form instead. -/
theorem roundtrip_of_jsonNative (r : PyVal) (h : r.isJsonNative = true) :
    gateAccepts r = true ∧ jsonRoundTrip r = some r := by
  have h2 := pyLoads_pyDumps r h
  refine ⟨?_, h2⟩
  cases hd : pyDumps r with
  | none => rw [hd] at h2; simp at h2
  | some j => simp [gateAccepts, hd]

/-- C9 witness: the round-trip theorem applied to a concrete record. -/
theorem roundtrip_of_jsonNative_witness :
    gateAccepts recA = true ∧ jsonRoundTrip recA = some recA :=
  roundtrip_of_jsonNative recA rfl

/-!
## C1 — rollback, resource release and re-raise on late loader failures
-/

/-- `json.dumps recA`. -/
def recAJson : JVal := .obj [("repo_name", .str "apache/airflow"), ("stars", .int 5)]

/-- C1: for a non-empty batch, once the temporary staging table has been
created, if the staging insert, the promotion `INSERT...SELECT` or the
commit itself raises, the loader re-raises the error after an explicit
rollback, and the cursor and connection are closed on that exit path; and
whenever a commit statement is issued, the promotion statement succeeded
and preceded it. -/
theorem loader_rollback_reraise (cfg : LoaderCfg) (data : List PyVal)
    (env : DbEnv) (c : Nat) (rows : List StagedRow)
    (hdata : data ≠ [])
    (hconn : env.connectOk = true) (hschema : env.useSchemaOk = true)
    (hcreate : env.createTempOk = true)
    (hrows : (buildInsertData cfg.keyField data c).1 = .ok rows)
    (hne : rows ≠ []) :
    (env.stageInsertOk = false ∨ env.promoteOk = false ∨ env.commitOk = false →
      (saveToSnowflakeCfg cfg data env c).result = .error .dbError ∧
      DbEvent.rollback ∈ (saveToSnowflakeCfg cfg data env c).events ∧
      DbEvent.cursorClose ∈ (saveToSnowflakeCfg cfg data env c).events ∧
      DbEvent.connClose ∈ (saveToSnowflakeCfg cfg data env c).events) ∧
    (DbEvent.commit ∈ (saveToSnowflakeCfg cfg data env c).events →
      env.promoteOk = true ∧
      commitAfterPromote (saveToSnowflakeCfg cfg data env c).events) := by
  have hde : data.isEmpty = false := by
    cases data with
    | nil => simp at hdata
    | cons a l => rfl
  have hre : rows.isEmpty = false := by
    cases rows with
    | nil => simp at hne
    | cons a l => rfl
  rcases hb : buildInsertData cfg.keyField data c with ⟨res, cF⟩
  rw [hb] at hrows
  simp only at hrows
  subst hrows
  rcases hsi : env.stageInsertOk with _ | _
  · have heq : saveToSnowflakeCfg cfg data env c =
        ⟨[.connect, .useSchema rawSchema, .createTemp cfg.tempTable,
          .stageInsert cfg.tempTable rows.length, .rollback, .cursorClose, .connClose],
         [], cF, .error .dbError⟩ := by
      simp [saveToSnowflakeCfg, saveAfterBuild, hde, hconn, hschema, hcreate, hb, hre, hsi]
    rw [heq]
    exact ⟨fun _ => ⟨rfl, by simp, by simp, by simp⟩, fun hcm => by simp at hcm⟩
  · rcases hp : env.promoteOk with _ | _
    · have heq : saveToSnowflakeCfg cfg data env c =
          ⟨[.connect, .useSchema rawSchema, .createTemp cfg.tempTable,
            .stageInsert cfg.tempTable rows.length,
            .promote cfg.tempTable cfg.targetTable, .rollback, .cursorClose, .connClose],
           rows, cF, .error .dbError⟩ := by
        simp [saveToSnowflakeCfg, saveAfterBuild, hde, hconn, hschema, hcreate, hb, hre, hsi, hp]
      rw [heq]
      exact ⟨fun _ => ⟨rfl, by simp, by simp, by simp⟩, fun hcm => by simp at hcm⟩
    · rcases hco : env.commitOk with _ | _
      · have heq : saveToSnowflakeCfg cfg data env c =
            ⟨[.connect, .useSchema rawSchema, .createTemp cfg.tempTable,
              .stageInsert cfg.tempTable rows.length,
              .promote cfg.tempTable cfg.targetTable, .commit, .rollback,
              .cursorClose, .connClose],
             rows, cF, .error .dbError⟩ := by
          simp [saveToSnowflakeCfg, saveAfterBuild, hde, hconn, hschema, hcreate, hb, hre, hsi, hp, hco]
        rw [heq]
        refine ⟨fun _ => ⟨rfl, by simp, by simp, by simp⟩, fun _ => ⟨rfl, ?_⟩⟩
        exact ⟨[.connect, .useSchema rawSchema, .createTemp cfg.tempTable,
            .stageInsert cfg.tempTable rows.length,
            .promote cfg.tempTable cfg.targetTable],
          [.rollback, .cursorClose, .connClose], rfl,
          cfg.tempTable, cfg.targetTable, by simp⟩
      · have heq : saveToSnowflakeCfg cfg data env c =
            ⟨[.connect, .useSchema rawSchema, .createTemp cfg.tempTable,
              .stageInsert cfg.tempTable rows.length,
              .promote cfg.tempTable cfg.targetTable, .commit,
              .cursorClose, .connClose],
             rows, cF, .ok Option.none⟩ := by
          simp [saveToSnowflakeCfg, saveAfterBuild, hde, hconn, hschema, hcreate, hb, hre, hsi, hp, hco]
        rw [heq]
        refine ⟨fun hfail => ?_, fun _ => ⟨rfl, ?_⟩⟩
        · rcases hfail with h | h | h <;> simp_all
        · exact ⟨[.connect, .useSchema rawSchema, .createTemp cfg.tempTable,
              .stageInsert cfg.tempTable rows.length,
              .promote cfg.tempTable cfg.targetTable],
            [.cursorClose, .connClose], rfl,
            cfg.tempTable, cfg.targetTable, by simp⟩

/-- C1 witness: a concrete promotion failure on a one-record batch. -/
theorem loader_rollback_reraise_witness :
    (dbPromoteFail.stageInsertOk = false ∨ dbPromoteFail.promoteOk = false ∨
        dbPromoteFail.commitOk = false →
      (saveToSnowflakeCfg githubLoaderCfg [recA] dbPromoteFail 0).result = .error .dbError ∧
      DbEvent.rollback ∈ (saveToSnowflakeCfg githubLoaderCfg [recA] dbPromoteFail 0).events ∧
      DbEvent.cursorClose ∈ (saveToSnowflakeCfg githubLoaderCfg [recA] dbPromoteFail 0).events ∧
      DbEvent.connClose ∈ (saveToSnowflakeCfg githubLoaderCfg [recA] dbPromoteFail 0).events) ∧
    (DbEvent.commit ∈ (saveToSnowflakeCfg githubLoaderCfg [recA] dbPromoteFail 0).events →
      dbPromoteFail.promoteOk = true ∧
      commitAfterPromote (saveToSnowflakeCfg githubLoaderCfg [recA] dbPromoteFail 0).events) :=
  loader_rollback_reraise githubLoaderCfg [recA] dbPromoteFail 0
    [⟨0, .str "apache/airflow", recAJson⟩] (by simp) rfl rfl rfl rfl (by simp)

/-!
## Record-shape lemmas (fixed field sets)
-/

/-- Destructor for a successful `Except` bind. -/
theorem exceptBind_ok {ε α β : Type} {e : Except ε α} {f : α → Except ε β}
    {b : β} (h : e >>= f = .ok b) : ∃ a, e = .ok a ∧ f a = .ok b := by
  cases e with
  | ok a => exact ⟨a, rfl, h⟩
  | error err => exact Except.noConfusion h

/-- The fixed field set of a GitHub repository record. -/
def githubFields : List String :=
  ["repo_name", "full_name", "description", "language", "stars", "forks",
   "watchers", "open_issues", "size", "created_at", "updated_at", "pushed_at",
   "default_branch", "contributors_count", "releases_count", "latest_release",
   "topics", "license", "extracted_at"]

/-- The PyPI record fields present regardless of the statistics call. -/
def pypiBaseFields : List String :=
  ["package_name", "version", "summary", "description_content_type",
   "home_page", "author", "author_email", "maintainer", "license", "keywords",
   "classifiers", "requires_dist", "requires_python", "project_urls",
   "release_count", "latest_release_info"]

/-- The three download-statistics fields spliced in by `**download_stats`. -/
def pypiDownloadFields : List String :=
  ["downloads_last_day", "downloads_last_week", "downloads_last_month"]

/-- Every successfully built GitHub record is a dictionary with exactly the
fixed field set, and its `extracted_at` field is the tick of the `now()`
call made while building it. -/
theorem buildGithubRecord_spec (rn : String) (rd : PyVal) (cc : Nat)
    (rel : PyVal) (c : Nat) (r : PyVal)
    (h : buildGithubRecord rn rd cc rel c = .ok r) :
    pyKeys r = some githubFields ∧ pyExtractedAt r = some (c : Int) := by
  unfold buildGithubRecord at h
  obtain ⟨v1, h1, h⟩ := exceptBind_ok h
  obtain ⟨v2, h2, h⟩ := exceptBind_ok h
  obtain ⟨v3, h3, h⟩ := exceptBind_ok h
  obtain ⟨v4, h4, h⟩ := exceptBind_ok h
  obtain ⟨v5, h5, h⟩ := exceptBind_ok h
  obtain ⟨v6, h6, h⟩ := exceptBind_ok h
  obtain ⟨v7, h7, h⟩ := exceptBind_ok h
  obtain ⟨v8, h8, h⟩ := exceptBind_ok h
  obtain ⟨v9, h9, h⟩ := exceptBind_ok h
  obtain ⟨v10, h10, h⟩ := exceptBind_ok h
  obtain ⟨v11, h11, h⟩ := exceptBind_ok h
  obtain ⟨v12, h12, h⟩ := exceptBind_ok h
  obtain ⟨v13, h13, h⟩ := exceptBind_ok h
  obtain ⟨v14, h14, h⟩ := exceptBind_ok h
  obtain ⟨v15, h15, h⟩ := exceptBind_ok h
  obtain ⟨v16, h16, h⟩ := exceptBind_ok h
  obtain ⟨v17, h17, h⟩ := exceptBind_ok h
  injection h with h
  subst h
  exact ⟨rfl, rfl⟩

/-- Shape of the `download_stats` dictionary: empty unless the statistics
call returned 200, in which case it has exactly the three download keys. -/
theorem downloadStats_spec (stats : HttpResp) (l : List (String × PyVal))
    (h : downloadStats stats = .ok l) :
    ((stats.status == 200) = false ∧ l = []) ∨
    ((stats.status == 200) = true ∧ ∃ a b d,
      l = [("downloads_last_day", a), ("downloads_last_week", b),
           ("downloads_last_month", d)]) := by
  unfold downloadStats at h
  by_cases h200 : (stats.status == 200) = true
  · rw [if_pos h200] at h
    refine Or.inr ⟨h200, ?_⟩
    rcases hrj : respJson stats with e | sd
    · rw [hrj] at h; exact Except.noConfusion h
    · rw [hrj] at h
      obtain ⟨w1, hw1, h⟩ := exceptBind_ok h
      obtain ⟨w2, hw2, h⟩ := exceptBind_ok h
      obtain ⟨w3, hw3, h⟩ := exceptBind_ok h
      obtain ⟨w4, hw4, h⟩ := exceptBind_ok h
      obtain ⟨w5, hw5, h⟩ := exceptBind_ok h
      obtain ⟨w6, hw6, h⟩ := exceptBind_ok h
      injection h with h
      exact ⟨w2, w4, w6, h.symm⟩
  · rw [if_neg h200] at h
    injection h with h
    exact Or.inl ⟨by simpa using h200, h.symm⟩

/-- Every successfully built PyPI record is a dictionary whose field set is
the base fields, then the three download keys exactly when the statistics
call returned 200, then `extracted_at`; its `extracted_at` field is the
tick of the `now()` call made while building it. -/
theorem buildPypiRecord_spec (pn : String) (pd : PyVal) (stats : HttpResp)
    (c : Nat) (r : PyVal) (h : buildPypiRecord pn pd stats c = .ok r) :
    pyKeys r = some (pypiBaseFields ++
      (if stats.status == 200 then pypiDownloadFields else []) ++
      ["extracted_at"]) ∧
    pyExtractedAt r = some (c : Int) := by
  unfold buildPypiRecord at h
  obtain ⟨ds, hds, h⟩ := exceptBind_ok h
  obtain ⟨v2, h2, h⟩ := exceptBind_ok h
  obtain ⟨v3, h3, h⟩ := exceptBind_ok h
  obtain ⟨v4, h4, h⟩ := exceptBind_ok h
  obtain ⟨v5, h5, h⟩ := exceptBind_ok h
  obtain ⟨v6, h6, h⟩ := exceptBind_ok h
  obtain ⟨v7, h7, h⟩ := exceptBind_ok h
  obtain ⟨v8, h8, h⟩ := exceptBind_ok h
  obtain ⟨v9, h9, h⟩ := exceptBind_ok h
  obtain ⟨v10, h10, h⟩ := exceptBind_ok h
  obtain ⟨v11, h11, h⟩ := exceptBind_ok h
  obtain ⟨v12, h12, h⟩ := exceptBind_ok h
  obtain ⟨v13, h13, h⟩ := exceptBind_ok h
  obtain ⟨v14, h14, h⟩ := exceptBind_ok h
  obtain ⟨v15, h15, h⟩ := exceptBind_ok h
  obtain ⟨v16, h16, h⟩ := exceptBind_ok h
  obtain ⟨v17, h17, h⟩ := exceptBind_ok h
  obtain ⟨v18, h18, h⟩ := exceptBind_ok h
  injection h with h
  subst h
  rcases downloadStats_spec stats ds hds with ⟨hs, hl⟩ | ⟨hs, a, b, d, hl⟩
  · subst hl
    rw [hs]
    exact ⟨rfl, rfl⟩
  · subst hl
    rw [hs]
    exact ⟨rfl, rfl⟩

/-- A handler output `.ok (some r)` comes from a `try` block that produced
`r`, with the clock passed through. -/
theorem fetchHandler_ok_some {t : List FEvent × Nat × Except PyExn PyVal}
    {r : PyVal} (h : (fetchHandler t).result = .ok (some r)) :
    t.2.2 = .ok r ∧ (fetchHandler t).clock = t.2.1 := by
  rcases t with ⟨evs, c', res⟩
  cases res with
  | ok v =>
    simp only [fetchHandler] at h
    injection h with h
    injection h with h
    subst h
    exact ⟨rfl, rfl⟩
  | error e =>
    exfalso
    cases e <;> simp [fetchHandler, PyExn.isRequestException, PyExn.isException] at h

/-- Success case of the GitHub fetch tail: the record has the fixed field
set, is stamped at tick `c`, and one tick was consumed. -/
theorem getRepoDataRest_ok {rn : String} {env : GhEnv} {evs0 : List FEvent}
    {resp : HttpResp} {c : Nat} {evs : List FEvent} {c' : Nat} {r : PyVal}
    (h : GitHubExtractor.getRepoDataRest rn env evs0 resp c = (evs, c', .ok r)) :
    pyKeys r = some githubFields ∧ pyExtractedAt r = some (c : Int) ∧ c' = c + 1 := by
  unfold GitHubExtractor.getRepoDataRest at h
  split at h
  · exact absurd h (by simp)
  rcases hj : respJson resp with e | repoData
  · simp only [hj] at h; exact absurd h (by simp)
  simp only [hj] at h
  rcases hc2 : env.contributors with _ | cr
  · simp only [hc2] at h; exact absurd h (by simp)
  simp only [hc2] at h
  rcases hcc : contribCount cr with e | cc
  · simp only [hcc] at h; exact absurd h (by simp)
  simp only [hcc] at h
  rcases hr2 : env.releases with _ | rr
  · simp only [hr2] at h; exact absurd h (by simp)
  simp only [hr2] at h
  rcases hrel : releasesVal rr with e | rel
  · simp only [hrel] at h; exact absurd h (by simp)
  simp only [hrel] at h
  rcases hbg : buildGithubRecord rn repoData cc rel c with e | rec
  · simp only [hbg] at h; exact absurd h (by simp)
  simp only [hbg] at h
  injection h with h1 h2
  injection h2 with h2 h3
  injection h3 with h3
  subst h3
  obtain ⟨hk, he⟩ := buildGithubRecord_spec _ _ _ _ _ _ hbg
  exact ⟨hk, he, h2.symm⟩

/-- Success case of the whole GitHub `try` block. -/
theorem getRepoDataBody_ok {rn : String} {env : GhEnv} {c : Nat}
    {evs : List FEvent} {c' : Nat} {r : PyVal}
    (h : GitHubExtractor.getRepoDataBody rn env c = (evs, c', .ok r)) :
    pyKeys r = some githubFields ∧ pyExtractedAt r = some (c : Int) ∧ c' = c + 1 := by
  unfold GitHubExtractor.getRepoDataBody at h
  rcases hp : env.primary with _ | r1
  · simp only [hp] at h; exact absurd h (by simp)
  · simp only [hp] at h
    split at h
    · rcases hr : env.primaryRetry with _ | r2
      · simp only [hr] at h; exact absurd h (by simp)
      · simp only [hr] at h; exact getRepoDataRest_ok h
    · exact getRepoDataRest_ok h

/-- A successful `get_repo_data` record has the fixed GitHub field set and
is stamped with the tick at which the fetch ran. -/
theorem getRepoData_ok_some {rn : String} {env : GhEnv} {c : Nat} {r : PyVal}
    (h : (GitHubExtractor.getRepoData rn env c).result = .ok (some r)) :
    pyKeys r = some githubFields ∧ pyExtractedAt r = some (c : Int) ∧
    (GitHubExtractor.getRepoData rn env c).clock = c + 1 := by
  obtain ⟨hres, hclock⟩ :=
    fetchHandler_ok_some (t := GitHubExtractor.getRepoDataBody rn env c) h
  rcases hb : GitHubExtractor.getRepoDataBody rn env c with ⟨evs, cF, res⟩
  rw [hb] at hres hclock
  simp only at hres hclock
  subst hres
  obtain ⟨hk, he, hc⟩ := getRepoDataBody_ok hb
  refine ⟨hk, he, ?_⟩
  show (fetchHandler (GitHubExtractor.getRepoDataBody rn env c)).clock = c + 1
  rw [hb, hclock, hc]

/-- Success case of the whole PyPI `try` block: the statistics call
returned a response, and the record field set depends on its status. -/
theorem getPackageInfoBody_ok {pn : String} {env : PyEnv} {c : Nat}
    {evs : List FEvent} {c' : Nat} {r : PyVal}
    (h : PyPIExtractor.getPackageInfoBody pn env c = (evs, c', .ok r)) :
    (∃ stats, env.stats = some stats ∧
      pyKeys r = some (pypiBaseFields ++
        (if stats.status == 200 then pypiDownloadFields else []) ++
        ["extracted_at"])) ∧
    pyExtractedAt r = some (c : Int) ∧ c' = c + 1 := by
  unfold PyPIExtractor.getPackageInfoBody at h
  rcases hp : env.primary with _ | resp
  · simp only [hp] at h; exact absurd h (by simp)
  simp only [hp] at h
  split at h
  · exact absurd h (by simp)
  rcases hj : respJson resp with e | pd
  · simp only [hj] at h; exact absurd h (by simp)
  simp only [hj] at h
  rcases hs : env.stats with _ | stats
  · simp only [hs] at h; exact absurd h (by simp)
  simp only [hs] at h
  rcases hbp : buildPypiRecord pn pd stats c with e | rec
  · simp only [hbp] at h; exact absurd h (by simp)
  simp only [hbp] at h
  injection h with h1 h2
  injection h2 with h2 h3
  injection h3 with h3
  subst h3
  obtain ⟨hk, he⟩ := buildPypiRecord_spec _ _ _ _ _ hbp
  exact ⟨⟨stats, rfl, hk⟩, he, h2.symm⟩

/-- A successful `get_package_info` record has the base fields, the three
download keys exactly when the statistics call returned 200, and a final
`extracted_at` stamped at the tick at which the fetch ran. -/
theorem getPackageInfo_ok_some {pn : String} {env : PyEnv} {c : Nat} {r : PyVal}
    (h : (PyPIExtractor.getPackageInfo pn env c).result = .ok (some r)) :
    (∃ stats, env.stats = some stats ∧
      pyKeys r = some (pypiBaseFields ++
        (if stats.status == 200 then pypiDownloadFields else []) ++
        ["extracted_at"])) ∧
    pyExtractedAt r = some (c : Int) ∧
    (PyPIExtractor.getPackageInfo pn env c).clock = c + 1 := by
  obtain ⟨hres, hclock⟩ :=
    fetchHandler_ok_some (t := PyPIExtractor.getPackageInfoBody pn env c) h
  rcases hb : PyPIExtractor.getPackageInfoBody pn env c with ⟨evs, cF, res⟩
  rw [hb] at hres hclock
  simp only at hres hclock
  subst hres
  obtain ⟨hk, he, hc⟩ := getPackageInfoBody_ok hb
  refine ⟨hk, he, ?_⟩
  show (fetchHandler (PyPIExtractor.getPackageInfoBody pn env c)).clock = c + 1
  rw [hb, hclock, hc]

/-!
## C2 — fixed field sets
-/

/-- A GitHub HTTP environment on which the fetch succeeds. -/
def ghEnvOk : GhEnv :=
  { primary := some ⟨200, some (.obj [])⟩
    primaryRetry := some ⟨200, some (.obj [])⟩
    contributors := some ⟨200, some (.arr [])⟩
    releases := some ⟨404, Option.none⟩ }

/-- A PyPI HTTP environment on which the fetch succeeds but the
statistics call returns 404. -/
def pyEnvNoStats : PyEnv :=
  { primary := some ⟨200, some (.obj [])⟩
    stats := some ⟨404, Option.none⟩ }

/-- C2 counterexample: when the statistics call fails (HTTP 404), the PyPI
fetcher still returns a record — but that record *omits* the declared
`downloads_last_day` key (and likewise the other two download keys),
instead of carrying a default value. -/
theorem pypi_missing_download_keys_cex :
    (PyPIExtractor.getPackageInfo "pandas" pyEnvNoStats 0).result =
      .ok (some (recOf (PyPIExtractor.getPackageInfo "pandas" pyEnvNoStats 0))) ∧
    PyVal.hasKey (recOf (PyPIExtractor.getPackageInfo "pandas" pyEnvNoStats 0))
      "downloads_last_day" = false := ⟨rfl, rfl⟩

/-- C2 (amended): every record returned by the GitHub fetcher carries the
full fixed GitHub field set (with defaults for absent upstream data);
every record returned by the PyPI fetcher carries the fixed base field
set plus `extracted_at`, but the three download-statistics keys are
present exactly when the statistics call returned HTTP 200 — they are
omitted, not defaulted, otherwise. -/
theorem fetcher_record_shape (rn pn : String) (ge : GhEnv) (pe : PyEnv)
    (c c2 : Nat) (r q : PyVal)
    (hg : (GitHubExtractor.getRepoData rn ge c).result = .ok (some r))
    (hp : (PyPIExtractor.getPackageInfo pn pe c2).result = .ok (some q)) :
    pyKeys r = some githubFields ∧
    ∃ stats, pe.stats = some stats ∧
      pyKeys q = some (pypiBaseFields ++
        (if stats.status == 200 then pypiDownloadFields else []) ++
        ["extracted_at"]) :=
  ⟨(getRepoData_ok_some hg).1, (getPackageInfo_ok_some hp).1⟩

/-- C2 witness: the shape theorem applied to concrete successful fetches. -/
theorem fetcher_record_shape_witness :
    pyKeys (recOf (GitHubExtractor.getRepoData "apache/airflow" ghEnvOk 0)) =
      some githubFields ∧
    ∃ stats, pyEnvNoStats.stats = some stats ∧
      pyKeys (recOf (PyPIExtractor.getPackageInfo "pandas" pyEnvNoStats 0)) =
        some (pypiBaseFields ++
          (if stats.status == 200 then pypiDownloadFields else []) ++
          ["extracted_at"]) :=
  fetcher_record_shape "apache/airflow" "pandas" ghEnvOk pyEnvNoStats 0 0 _ _ rfl rfl

/-- The handler preserves the event list of the `try` block. -/
theorem fetchHandler_events (t : List FEvent × Nat × Except PyExn PyVal) :
    (fetchHandler t).events = t.1 := by
  rcases t with ⟨evs, c', res⟩
  cases res with
  | ok v => rfl
  | error e => cases e <;> rfl

/-- Whatever happens after the primary call(s), the GitHub fetch performs
no further primary calls and no further cooldown sleeps. -/
theorem getRepoDataRest_events (rn : String) (env : GhEnv)
    (evs0 : List FEvent) (resp : HttpResp) (c : Nat) :
    ∃ tail, (GitHubExtractor.getRepoDataRest rn env evs0 resp c).1 = evs0 ++ tail ∧
      FEvent.primaryCall ∉ tail ∧ FEvent.sleep60 ∉ tail := by
  unfold GitHubExtractor.getRepoDataRest
  split
  · exact ⟨[], by simp, by simp, by simp⟩
  rcases hj : respJson resp with e | repoData
  · exact ⟨[], by simp, by simp, by simp⟩
  rcases hc2 : env.contributors with _ | cr
  · exact ⟨[.contributorsCall], by simp, by simp, by simp⟩
  rcases hcc : contribCount cr with e | cc
  · exact ⟨[.contributorsCall], by simp [hcc], by simp, by simp⟩
  rcases hr2 : env.releases with _ | rr
  · exact ⟨[.contributorsCall, .releasesCall], by simp [hcc], by simp, by simp⟩
  rcases hrel : releasesVal rr with e | rel
  · exact ⟨[.contributorsCall, .releasesCall], by simp [hcc, hrel], by simp, by simp⟩
  rcases hbg : buildGithubRecord rn repoData cc rel c with e | rec
  · exact ⟨[.contributorsCall, .releasesCall], by simp [hcc, hrel, hbg], by simp, by simp⟩
  · exact ⟨[.contributorsCall, .releasesCall], by simp [hcc, hrel, hbg], by simp, by simp⟩

/-!
## C3 — 403 cooldown and single retry
-/

/-- C3 (amended): when the *GitHub* primary call returns 403 the fetcher
performs exactly two primary calls with exactly one cooldown sleep between
them, and a 4xx/5xx status on the retried call is terminal (absent, no
third call); the *PyPI* fetcher has no cooldown at all — a 403 on its
primary call is immediately terminal with no sleep and no retry. -/
theorem cooldown_retry_behavior (rn pn : String) (ge : GhEnv) (pe : PyEnv)
    (c c2 : Nat) (r1 p1 : HttpResp)
    (hg : ge.primary = some r1) (h403 : r1.status = 403)
    (hpp : pe.primary = some p1) (hp403 : p1.status = 403) :
    ((GitHubExtractor.getRepoData rn ge c).events.count FEvent.primaryCall = 2 ∧
     (GitHubExtractor.getRepoData rn ge c).events.count FEvent.sleep60 = 1) ∧
    (∀ r2, ge.primaryRetry = some r2 → statusRaises r2.status = true →
      (GitHubExtractor.getRepoData rn ge c).result = .ok Option.none ∧
      (GitHubExtractor.getRepoData rn ge c).events =
        [.primaryCall, .sleep60, .primaryCall]) ∧
    ((PyPIExtractor.getPackageInfo pn pe c2).events = [.primaryCall] ∧
     (PyPIExtractor.getPackageInfo pn pe c2).result = .ok Option.none) := by
  have h403b : (r1.status == 403) = true := by simp [h403]
  have hpyraise : statusRaises p1.status = true := by
    simp [statusRaises, hp403]
  refine ⟨?_, ?_, ?_⟩
  · -- counts
    unfold GitHubExtractor.getRepoData GitHubExtractor.getRepoDataBody
    simp only [hg]
    rw [if_pos h403b]
    rcases hr : ge.primaryRetry with _ | r2
    · constructor <;> (rw [fetchHandler_events]; simp [List.count_cons])
    · obtain ⟨tail, htail, hpc, hs60⟩ :=
        getRepoDataRest_events rn ge [.primaryCall, .sleep60, .primaryCall] r2 c
      rw [fetchHandler_events, htail]
      constructor
      · rw [List.count_append, List.count_eq_zero_of_not_mem hpc]; decide
      · rw [List.count_append, List.count_eq_zero_of_not_mem hs60]; decide
  · -- retried call 4xx/5xx is terminal
    intro r2 hr2 hraise
    unfold GitHubExtractor.getRepoData GitHubExtractor.getRepoDataBody
    simp only [hg, hr2]
    rw [if_pos h403b]
    unfold GitHubExtractor.getRepoDataRest
    rw [if_pos hraise]
    exact ⟨rfl, rfl⟩
  · -- PyPI: no cooldown, 403 on primary is immediately terminal
    unfold PyPIExtractor.getPackageInfo PyPIExtractor.getPackageInfoBody
    simp only [hpp]
    rw [if_pos hpyraise]
    exact ⟨rfl, rfl⟩

/-- A PyPI HTTP environment whose primary call returns 403. -/
def pyEnv403 : PyEnv := ⟨some ⟨403, some (.obj [])⟩, some ⟨200, some (.obj [])⟩⟩

/-- A GitHub environment: 403 on the primary call, 500 on the retry. -/
def ghEnv403 : GhEnv :=
  ⟨some ⟨403, Option.none⟩, some ⟨500, Option.none⟩,
   some ⟨200, some (.arr [])⟩, some ⟨200, some (.arr [])⟩⟩

/-- C3 counterexample: on a 403 from the PyPI primary metadata call the
fetcher performs no cooldown sleep and no retry — a single primary call,
immediately terminal — contradicting the claimed sleep-once-retry-once
behaviour for every fetcher. -/
theorem pypi_403_no_cooldown_cex :
    (PyPIExtractor.getPackageInfo "pandas" pyEnv403 0).events = [.primaryCall] ∧
    (PyPIExtractor.getPackageInfo "pandas" pyEnv403 0).events.count FEvent.sleep60 = 0 ∧
    (PyPIExtractor.getPackageInfo "pandas" pyEnv403 0).result = .ok Option.none :=
  ⟨rfl, rfl, rfl⟩

/-- C3 witness: the cooldown/retry theorem at concrete environments. -/
theorem cooldown_retry_behavior_witness :
    ((GitHubExtractor.getRepoData "apache/spark" ghEnv403 0).events.count
        FEvent.primaryCall = 2 ∧
     (GitHubExtractor.getRepoData "apache/spark" ghEnv403 0).events.count
        FEvent.sleep60 = 1) ∧
    (∀ r2, ghEnv403.primaryRetry = some r2 → statusRaises r2.status = true →
      (GitHubExtractor.getRepoData "apache/spark" ghEnv403 0).result = .ok Option.none ∧
      (GitHubExtractor.getRepoData "apache/spark" ghEnv403 0).events =
        [.primaryCall, .sleep60, .primaryCall]) ∧
    ((PyPIExtractor.getPackageInfo "duckdb" pyEnv403 0).events = [.primaryCall] ∧
     (PyPIExtractor.getPackageInfo "duckdb" pyEnv403 0).result = .ok Option.none) :=
  cooldown_retry_behavior "apache/spark" "duckdb" ghEnv403 pyEnv403 0 0
    ⟨403, Option.none⟩ ⟨403, some (.obj [])⟩ rfl rfl rfl rfl

/-- A record with a non-empty field set is a non-empty dictionary, which
is Python-truthy. -/
theorem truthy_of_keys_ne_nil {r : PyVal} {l : List String}
    (h : pyKeys r = some l) (hne : l ≠ []) : r.truthy = true := by
  cases r with
  | dict kvs =>
    cases kvs with
    | nil =>
      exfalso
      apply hne
      simp [pyKeys] at h
      simp [h.symm]
    | cons p rest => simp [PyVal.truthy]
  | str s => simp [pyKeys] at h
  | int n => simp [pyKeys] at h
  | bool b => simp [pyKeys] at h
  | none => simp [pyKeys] at h
  | list xs => simp [pyKeys] at h
  | tuple xs => simp [pyKeys] at h
  | pyObject i => simp [pyKeys] at h

/-!
## C5 — the driver attempts every entity once, in order
-/

/-- `extract_all_repositories` never aborts, attempts each catalog entity
exactly once in order, and its batch is exactly the in-order subsequence
of present fetch results. -/
theorem extract_all_repositories_spec (envOf : String → GhEnv)
    (catalog : List String) (c : Nat) :
    (GitHubExtractor.extractAllRepositories envOf catalog c).err = Option.none ∧
    (GitHubExtractor.extractAllRepositories envOf catalog c).attempts.map
      Prod.fst = catalog ∧
    (GitHubExtractor.extractAllRepositories envOf catalog c).batch =
      (GitHubExtractor.extractAllRepositories envOf catalog c).attempts.filterMap
        Prod.snd := by
  induction catalog generalizing c with
  | nil => exact ⟨rfl, rfl, rfl⟩
  | cons repo rest ih =>
    obtain ⟨ro, hro⟩ := getRepoData_isOk repo (envOf repo) c
    obtain ⟨ih1, ih2, ih3⟩ := ih (GitHubExtractor.getRepoData repo (envOf repo) c).clock
    unfold GitHubExtractor.extractAllRepositories
    simp only [hro]
    cases ro with
    | none => exact ⟨ih1, by simp [ih2], by simp [ih3]⟩
    | some r =>
      have htr : r.truthy = true :=
        truthy_of_keys_ne_nil (getRepoData_ok_some hro).1 (by simp [githubFields])
      exact ⟨ih1, by simp [ih2], by simp [htr, ih3, List.filterMap_cons]⟩

/-- `extract_all_packages`: same loop properties for the PyPI pipeline. -/
theorem extract_all_packages_spec (envOf : String → PyEnv)
    (catalog : List String) (c : Nat) :
    (PyPIExtractor.extractAllPackages envOf catalog c).err = Option.none ∧
    (PyPIExtractor.extractAllPackages envOf catalog c).attempts.map
      Prod.fst = catalog ∧
    (PyPIExtractor.extractAllPackages envOf catalog c).batch =
      (PyPIExtractor.extractAllPackages envOf catalog c).attempts.filterMap
        Prod.snd := by
  induction catalog generalizing c with
  | nil => exact ⟨rfl, rfl, rfl⟩
  | cons pkg rest ih =>
    obtain ⟨ro, hro⟩ := getPackageInfo_isOk pkg (envOf pkg) c
    obtain ⟨ih1, ih2, ih3⟩ := ih (PyPIExtractor.getPackageInfo pkg (envOf pkg) c).clock
    unfold PyPIExtractor.extractAllPackages
    simp only [hro]
    cases ro with
    | none => exact ⟨ih1, by simp [ih2], by simp [ih3]⟩
    | some q =>
      obtain ⟨⟨stats, hst, hkeys⟩, _, _⟩ := getPackageInfo_ok_some hro
      have htr : q.truthy = true :=
        truthy_of_keys_ne_nil hkeys (by simp [pypiBaseFields])
      exact ⟨ih1, by simp [ih2], by simp [htr, ih3, List.filterMap_cons]⟩

/-- C5: for every catalog and every HTTP environment, each Extraction
Driver runs to completion (no fetch failure ever aborts the loop),
attempts a fetch exactly once per catalog entity in catalog order, and the
returned batch is exactly the in-order subsequence of present fetch
results (a failed entity contributes no element). -/
theorem driver_attempts_in_order (envOfG : String → GhEnv)
    (envOfP : String → PyEnv) (catG catP : List String) (c c2 : Nat) :
    ((GitHubExtractor.extractAllRepositories envOfG catG c).err = Option.none ∧
     (GitHubExtractor.extractAllRepositories envOfG catG c).attempts.map
       Prod.fst = catG ∧
     (GitHubExtractor.extractAllRepositories envOfG catG c).batch =
       (GitHubExtractor.extractAllRepositories envOfG catG c).attempts.filterMap
         Prod.snd) ∧
    ((PyPIExtractor.extractAllPackages envOfP catP c2).err = Option.none ∧
     (PyPIExtractor.extractAllPackages envOfP catP c2).attempts.map
       Prod.fst = catP ∧
     (PyPIExtractor.extractAllPackages envOfP catP c2).batch =
       (PyPIExtractor.extractAllPackages envOfP catP c2).attempts.filterMap
         Prod.snd) :=
  ⟨extract_all_repositories_spec envOfG catG c,
   extract_all_packages_spec envOfP catP c2⟩

/-!
## C8 — credential precondition
-/

/-- C8: `GitHubExtractor.run` raises its configuration `ValueError` if and
only if the token is Python-falsy (unset or empty), and in that case it
does so before any network or warehouse activity (no events at all); the
PyPI run controller has no credential precondition and never raises a
configuration error. -/
theorem run_config_error_iff (token : Option String) (envOfG : String → GhEnv)
    (envOfP : String → PyEnv) (dg dp : DbEnv) (catG catP : List String)
    (c c2 : Nat) :
    ((GitHubExtractor.run token envOfG dg catG c).result = .error .configError ↔
      tokenMissing token = true) ∧
    (tokenMissing token = true →
      GitHubExtractor.run token envOfG dg catG c =
        ⟨[], [], [], [], c, .error .configError⟩) ∧
    (PyPIExtractor.run envOfP dp catP c2).result ≠ .error RunErr.configError := by
  have hg := extract_all_repositories_spec envOfG catG c
  have hp2 := extract_all_packages_spec envOfP catP c2
  have hcfg : tokenMissing token = true →
      GitHubExtractor.run token envOfG dg catG c =
        ⟨[], [], [], [], c, .error .configError⟩ := by
    intro ht
    unfold GitHubExtractor.run
    rw [if_pos ht]
  refine ⟨⟨?_, fun ht => by rw [hcfg ht]⟩, hcfg, ?_⟩
  · intro hres
    by_contra ht
    unfold GitHubExtractor.run at hres
    rw [if_neg ht] at hres
    unfold runAfterExtract at hres
    simp only [hg.1] at hres
    split at hres
    · exact absurd hres (by simp)
    · split at hres <;> exact absurd hres (by simp)
  · intro hres
    unfold PyPIExtractor.run at hres
    unfold runAfterExtract at hres
    simp only [hp2.1] at hres
    split at hres
    · exact absurd hres (by simp)
    · split at hres <;> exact absurd hres (by simp)

/-- A per-entity GitHub environment where every fetch succeeds. -/
def ghEnvOfOk : String → GhEnv := fun _ => ghEnvOk

/-- A per-entity PyPI environment where every fetch succeeds. -/
def pyEnvOfOk : String → PyEnv := fun _ => pyEnvNoStats

/-- C8 witness: the credential theorem at a concrete missing token. -/
theorem run_config_error_iff_witness :
    (((GitHubExtractor.run Option.none ghEnvOfOk dbOk ["apache/airflow"] 0).result =
        .error .configError ↔ tokenMissing Option.none = true) ∧
     (tokenMissing Option.none = true →
       GitHubExtractor.run Option.none ghEnvOfOk dbOk ["apache/airflow"] 0 =
         ⟨[], [], [], [], 0, .error .configError⟩) ∧
     (PyPIExtractor.run pyEnvOfOk dbOk ["pandas"] 0).result ≠
       .error RunErr.configError) :=
  run_config_error_iff Option.none ghEnvOfOk pyEnvOfOk dbOk dbOk
    ["apache/airflow"] ["pandas"] 0 0

/-!
## C10 — staged timestamps are fresh and strictly later than payload stamps
-/

/-- The handler passes the clock of the `try` block through. -/
theorem fetchHandler_clock (t : List FEvent × Nat × Except PyExn PyVal) :
    (fetchHandler t).clock = t.2.1 := by
  rcases t with ⟨evs, c', res⟩
  cases res with
  | ok v => rfl
  | error e => cases e <;> rfl

/-- The GitHub fetch tail never decreases the clock. -/
theorem getRepoDataRest_clock_le (rn : String) (env : GhEnv)
    (evs0 : List FEvent) (resp : HttpResp) (c : Nat) :
    c ≤ (GitHubExtractor.getRepoDataRest rn env evs0 resp c).2.1 := by
  unfold GitHubExtractor.getRepoDataRest
  split
  · exact le_refl c
  rcases hj : respJson resp with e | repoData
  · exact le_refl c
  rcases hc2 : env.contributors with _ | cr
  · exact le_refl c
  rcases hcc : contribCount cr with e | cc
  · simp only [hcc]; exact le_refl c
  simp only [hcc]
  rcases hr2 : env.releases with _ | rr
  · exact le_refl c
  rcases hrel : releasesVal rr with e | rel
  · simp only [hrel]; exact le_refl c
  simp only [hrel]
  rcases hbg : buildGithubRecord rn repoData cc rel c with e | rec
  · simp only [hbg]; exact le_refl c
  · simp only [hbg]; exact Nat.le_succ c

/-- `get_repo_data` never decreases the clock. -/
theorem getRepoData_clock_le (rn : String) (env : GhEnv) (c : Nat) :
    c ≤ (GitHubExtractor.getRepoData rn env c).clock := by
  unfold GitHubExtractor.getRepoData
  rw [fetchHandler_clock]
  unfold GitHubExtractor.getRepoDataBody
  rcases hp : env.primary with _ | r1
  · simp only [hp]; exact le_refl c
  · simp only [hp]
    split
    · rcases hr : env.primaryRetry with _ | r2
      · simp only [hr]; exact le_refl c
      · simp only [hr]; exact getRepoDataRest_clock_le rn env _ r2 c
    · exact getRepoDataRest_clock_le rn env _ r1 c

/-- The PyPI fetch body never decreases the clock. -/
theorem getPackageInfoBody_clock_le (pn : String) (env : PyEnv) (c : Nat) :
    c ≤ (PyPIExtractor.getPackageInfoBody pn env c).2.1 := by
  unfold PyPIExtractor.getPackageInfoBody
  rcases hp : env.primary with _ | resp
  · simp only [hp]; exact le_refl c
  · simp only [hp]
    split
    · exact le_refl c
    · rcases hj : respJson resp with e | pd
      · simp only [hj]; exact le_refl c
      · simp only [hj]
        rcases hs : env.stats with _ | stats
        · simp only [hs]; exact le_refl c
        · simp only [hs]
          rcases hbp : buildPypiRecord pn pd stats c with e | rec
          · simp only [hbp]; exact le_refl c
          · simp only [hbp]; exact Nat.le_succ c

/-- `get_package_info` never decreases the clock. -/
theorem getPackageInfo_clock_le (pn : String) (env : PyEnv) (c : Nat) :
    c ≤ (PyPIExtractor.getPackageInfo pn env c).clock := by
  unfold PyPIExtractor.getPackageInfo
  rw [fetchHandler_clock]
  exact getPackageInfoBody_clock_le pn env c

/-- The GitHub driver never decreases the clock. -/
theorem extractAllRepositories_clock_le (envOf : String → GhEnv)
    (cat : List String) (c : Nat) :
    c ≤ (GitHubExtractor.extractAllRepositories envOf cat c).clock := by
  induction cat generalizing c with
  | nil => exact le_refl c
  | cons repo rest ih =>
    obtain ⟨ro, hro⟩ := getRepoData_isOk repo (envOf repo) c
    unfold GitHubExtractor.extractAllRepositories
    simp only [hro]
    exact le_trans (getRepoData_clock_le repo (envOf repo) c)
      (ih (GitHubExtractor.getRepoData repo (envOf repo) c).clock)

/-- The PyPI driver never decreases the clock. -/
theorem extractAllPackages_clock_le (envOf : String → PyEnv)
    (cat : List String) (c : Nat) :
    c ≤ (PyPIExtractor.extractAllPackages envOf cat c).clock := by
  induction cat generalizing c with
  | nil => exact le_refl c
  | cons pkg rest ih =>
    obtain ⟨ro, hro⟩ := getPackageInfo_isOk pkg (envOf pkg) c
    unfold PyPIExtractor.extractAllPackages
    simp only [hro]
    exact le_trans (getPackageInfo_clock_le pkg (envOf pkg) c)
      (ih (PyPIExtractor.getPackageInfo pkg (envOf pkg) c).clock)

/-- Every record in a GitHub extraction batch is stamped strictly before
the clock at which the driver finishes. -/
theorem extractAllRepositories_batch_stamp (envOf : String → GhEnv)
    (cat : List String) (c : Nat) :
    ∀ r ∈ (GitHubExtractor.extractAllRepositories envOf cat c).batch,
      ∃ p, pyExtractedAt r = some p ∧
        p < ((GitHubExtractor.extractAllRepositories envOf cat c).clock : Int) := by
  induction cat generalizing c with
  | nil => intro r hr; simp [GitHubExtractor.extractAllRepositories] at hr
  | cons repo rest ih =>
    intro r hr
    obtain ⟨ro, hro⟩ := getRepoData_isOk repo (envOf repo) c
    unfold GitHubExtractor.extractAllRepositories at hr ⊢
    simp only [hro] at hr ⊢
    cases ro with
    | none => exact ih (GitHubExtractor.getRepoData repo (envOf repo) c).clock r hr
    | some q =>
      rcases hqt : q.truthy with _ | _
      · simp only [hqt] at hr
        simp at hr
        exact ih (GitHubExtractor.getRepoData repo (envOf repo) c).clock r hr
      · simp only [hqt] at hr
        simp at hr
        rcases hr with hq | htail
        · subst hq
          obtain ⟨hk, he, hc⟩ := getRepoData_ok_some hro
          refine ⟨(c : Int), he, ?_⟩
          have h1 : c + 1 ≤ (GitHubExtractor.extractAllRepositories envOf rest
              (GitHubExtractor.getRepoData repo (envOf repo) c).clock).clock := by
            rw [← hc]
            exact extractAllRepositories_clock_le envOf rest _
          omega
        · exact ih (GitHubExtractor.getRepoData repo (envOf repo) c).clock r htail

/-- Every record in a PyPI extraction batch is stamped strictly before the
clock at which the driver finishes. -/
theorem extractAllPackages_batch_stamp (envOf : String → PyEnv)
    (cat : List String) (c : Nat) :
    ∀ r ∈ (PyPIExtractor.extractAllPackages envOf cat c).batch,
      ∃ p, pyExtractedAt r = some p ∧
        p < ((PyPIExtractor.extractAllPackages envOf cat c).clock : Int) := by
  induction cat generalizing c with
  | nil => intro r hr; simp [PyPIExtractor.extractAllPackages] at hr
  | cons pkg rest ih =>
    intro r hr
    obtain ⟨ro, hro⟩ := getPackageInfo_isOk pkg (envOf pkg) c
    unfold PyPIExtractor.extractAllPackages at hr ⊢
    simp only [hro] at hr ⊢
    cases ro with
    | none => exact ih (PyPIExtractor.getPackageInfo pkg (envOf pkg) c).clock r hr
    | some q =>
      rcases hqt : q.truthy with _ | _
      · simp only [hqt] at hr
        simp at hr
        exact ih (PyPIExtractor.getPackageInfo pkg (envOf pkg) c).clock r hr
      · simp only [hqt] at hr
        simp at hr
        rcases hr with hq | htail
        · subst hq
          obtain ⟨_, he, hc⟩ := getPackageInfo_ok_some hro
          refine ⟨(c : Int), he, ?_⟩
          have h1 : c + 1 ≤ (PyPIExtractor.extractAllPackages envOf rest
              (PyPIExtractor.getPackageInfo pkg (envOf pkg) c).clock).clock := by
            rw [← hc]
            exact extractAllPackages_clock_le envOf rest _
          omega
        · exact ih (PyPIExtractor.getPackageInfo pkg (envOf pkg) c).clock r htail

/-- Every tuple produced by the serialize-and-filter loop carries a fresh
`now()` tick at least the loop-entry clock, and its JSON text is the
serialization of some batch record. -/
theorem buildInsertData_spec (kf : String) :
    ∀ (data : List PyVal) (c : Nat) (rows : List StagedRow),
      (buildInsertData kf data c).1 = .ok rows →
      ∀ row ∈ rows, c ≤ row.tick ∧ ∃ r ∈ data, pyDumps r = some row.rawJson := by
  intro data
  induction data with
  | nil =>
    intro c rows h row hrow
    simp [buildInsertData] at h
    subst h
    simp at hrow
  | cons r rest ih =>
    intro c rows h row hrow
    unfold buildInsertData at h
    rcases hqt : r.truthy with _ | _
    · simp only [hqt] at h
      simp at h
      obtain ⟨hle, q, hq, hd⟩ := ih c rows h row hrow
      exact ⟨hle, q, List.mem_cons_of_mem r hq, hd⟩
    · simp only [hqt] at h
      simp only [if_true] at h
      rcases hd : pyDumps r with _ | j
      · simp only [hd] at h
        obtain ⟨hle, q, hq, hdq⟩ := ih c rows h row hrow
        exact ⟨hle, q, List.mem_cons_of_mem r hq, hdq⟩
      · simp only [hd] at h
        rcases hg : r.get kf with e | k
        · simp only [hg] at h
          exact absurd h (by simp)
        · simp only [hg] at h
          rcases hb : buildInsertData kf rest (c + 1) with ⟨res, cF⟩
          rw [hb] at h
          cases res with
          | ok rows2 =>
            simp only at h
            injection h with h
            subst h
            rcases List.mem_cons.mp hrow with h0 | htail
            · subst h0
              exact ⟨le_refl c, r, List.mem_cons_self r rest, hd⟩
            · obtain ⟨hle, q, hq, hdq⟩ :=
                ih (c + 1) rows2 (by rw [hb]) row htail
              exact ⟨le_trans (Nat.le_succ c) hle, q,
                List.mem_cons_of_mem r hq, hdq⟩
          | error e =>
            simp only at h
            exact absurd h (by simp)

/-- The rows handed to the staging insert are exactly the output of the
serialize-and-filter loop (or none were handed over at all). -/
theorem save_staged_cases (cfg : LoaderCfg) (data : List PyVal) (env : DbEnv)
    (c : Nat) :
    (saveToSnowflakeCfg cfg data env c).staged = [] ∨
    (buildInsertData cfg.keyField data c).1 =
      .ok (saveToSnowflakeCfg cfg data env c).staged := by
  unfold saveToSnowflakeCfg
  split
  · exact Or.inl rfl
  split
  · exact Or.inl rfl
  split
  · exact Or.inl rfl
  split
  · exact Or.inl rfl
  rcases hb : buildInsertData cfg.keyField data c with ⟨res, cF⟩
  simp only [hb]
  unfold saveAfterBuild
  cases res with
  | error e => exact Or.inl rfl
  | ok rows =>
    simp only
    split
    · exact Or.inl rfl
    split
    · exact Or.inl rfl
    split
    · exact Or.inr rfl
    split
    · exact Or.inr rfl
    · exact Or.inr rfl

/-- The staged rows of a run are those of its loader call on the extracted
batch (or the run staged nothing). -/
theorem runAfterExtract_staged (d : DriveOut)
    (save : List PyVal → Nat → SaveOut) :
    (runAfterExtract d save).staged = [] ∨
    ((runAfterExtract d save).staged = (save d.batch d.clock).staged ∧
     (runAfterExtract d save).batch = d.batch) := by
  unfold runAfterExtract
  split
  · exact Or.inl rfl
  split
  · exact Or.inl rfl
  split
  · exact Or.inr ⟨rfl, rfl⟩
  · exact Or.inr ⟨rfl, rfl⟩

/-- Freshness transfer: if every batch record is stamped before the clock
the loader starts from, every staged row is stamped strictly later than
its payload. -/
theorem runAfterExtract_fresh (d : DriveOut) (cfg : LoaderCfg) (denv : DbEnv)
    (hstamp : ∀ r ∈ d.batch, ∃ p, pyExtractedAt r = some p ∧
      p < (d.clock : Int)) :
    ∀ row ∈ (runAfterExtract d
        (fun b ck => saveToSnowflakeCfg cfg b denv ck)).staged,
      ∃ r ∈ (runAfterExtract d
          (fun b ck => saveToSnowflakeCfg cfg b denv ck)).batch, ∃ p,
        pyDumps r = some row.rawJson ∧ pyExtractedAt r = some p ∧
        p < (row.tick : Int) := by
  intro row hrow
  rcases runAfterExtract_staged d (fun b ck => saveToSnowflakeCfg cfg b denv ck)
    with h0 | ⟨hs, hbatch⟩
  · rw [h0] at hrow
    simp at hrow
  · rw [hs] at hrow
    rw [hbatch]
    replace hrow : row ∈ (saveToSnowflakeCfg cfg d.batch denv d.clock).staged := hrow
    rcases save_staged_cases cfg d.batch denv d.clock with h1 | h1
    · rw [h1] at hrow
      simp at hrow
    · obtain ⟨htick, q, hq, hdq⟩ :=
        buildInsertData_spec cfg.keyField d.batch d.clock _ h1 row hrow
      obtain ⟨p, hp, hlt⟩ := hstamp q hq
      exact ⟨q, hq, p, hdq, hp, by omega⟩

/-- C10: in either pipeline run, every staged row's `extracted_at` is a
fresh wall-clock reading taken inside `save_to_snowflake` at staging time,
strictly later than (never equal to) the `extracted_at` stamp embedded in
the corresponding record's payload at fetch completion. -/
theorem staged_timestamp_fresh (token : Option String) (envOfG : String → GhEnv)
    (envOfP : String → PyEnv) (dg dp : DbEnv) (catG catP : List String)
    (c c2 : Nat) :
    (∀ row ∈ (GitHubExtractor.run token envOfG dg catG c).staged,
      ∃ r ∈ (GitHubExtractor.run token envOfG dg catG c).batch, ∃ p,
        pyDumps r = some row.rawJson ∧ pyExtractedAt r = some p ∧
        p < (row.tick : Int)) ∧
    (∀ row ∈ (PyPIExtractor.run envOfP dp catP c2).staged,
      ∃ r ∈ (PyPIExtractor.run envOfP dp catP c2).batch, ∃ p,
        pyDumps r = some row.rawJson ∧ pyExtractedAt r = some p ∧
        p < (row.tick : Int)) := by
  constructor
  · by_cases ht : tokenMissing token = true
    · intro row hrow
      rw [show GitHubExtractor.run token envOfG dg catG c =
          ⟨[], [], [], [], c, .error .configError⟩ from by
        unfold GitHubExtractor.run; rw [if_pos ht]] at hrow
      simp at hrow
    · have hrun : GitHubExtractor.run token envOfG dg catG c =
          runAfterExtract (GitHubExtractor.extractAllRepositories envOfG catG c)
            (fun b ck => saveToSnowflakeCfg githubLoaderCfg b dg ck) := by
        unfold GitHubExtractor.run
        rw [if_neg ht]
        rfl
      rw [hrun]
      exact runAfterExtract_fresh _ githubLoaderCfg dg
        (extractAllRepositories_batch_stamp envOfG catG c)
  · have hrun : PyPIExtractor.run envOfP dp catP c2 =
        runAfterExtract (PyPIExtractor.extractAllPackages envOfP catP c2)
          (fun b ck => saveToSnowflakeCfg pypiLoaderCfg b dp ck) := by
      unfold PyPIExtractor.run
      rfl
    rw [hrun]
    exact runAfterExtract_fresh _ pypiLoaderCfg dp
      (extractAllPackages_batch_stamp envOfP catP c2)

/-- The single staged row of a one-repository GitHub run started at tick 0
(the payload is stamped at tick 0, the staged row at tick 1). -/
def c10row : StagedRow :=
  ⟨1, .str "apache/airflow",
   (pyDumps (recOf (GitHubExtractor.getRepoData "apache/airflow" ghEnvOk 0))).getD
     (JVal.obj [])⟩

/-- C10 witness: the freshness theorem at a concrete one-entity run. -/
theorem staged_timestamp_fresh_witness :
    c10row ∈ (GitHubExtractor.run (some "tok") ghEnvOfOk dbOk
      ["apache/airflow"] 0).staged ∧
    ∃ r ∈ (GitHubExtractor.run (some "tok") ghEnvOfOk dbOk
        ["apache/airflow"] 0).batch, ∃ p,
      pyDumps r = some c10row.rawJson ∧ pyExtractedAt r = some p ∧
      p < (c10row.tick : Int) := by
  have hm : c10row ∈ (GitHubExtractor.run (some "tok") ghEnvOfOk dbOk
      ["apache/airflow"] 0).staged := by
    rw [show (GitHubExtractor.run (some "tok") ghEnvOfOk dbOk
      ["apache/airflow"] 0).staged = [c10row] from rfl]
    exact List.mem_singleton.mpr rfl
  exact ⟨hm, (staged_timestamp_fresh (some "tok") ghEnvOfOk pyEnvOfOk dbOk dbOk
    ["apache/airflow"] ["pandas"] 0 0).1 c10row hm⟩
